import Mathlib
/-!
Verification of the OpenMANET manager daemon (Go sources) against its
natural-language specification.  Each Go function relevant to the claims is
shallowly embedded as an executable Lean definition; side effects (the Alfred
gossip client, the batctl subprocess, netlink route syscalls, the UCI
configuration tree, portaudio streams) are modelled by explicit environment
records and state passing.  Go runtime panics (nil dereference, index out of
range) are modelled by explicit outcome constructors.
-/
set_option maxRecDepth 8000
/-! ## Basic Go data model -/
/-- Models Go strconv.Atoi: optional sign, decimal digits, syntax error on an
empty or non-digit string, range error outside the signed 64-bit range. -/
def atoi (s : String) : Option Int :=
  let signDigits : Bool × List Char :=
    match s.toList with
    | '+' :: rest => (false, rest)
    | '-' :: rest => (true, rest)
    | cs => (false, cs)
  let neg := signDigits.1
  let digits := signDigits.2
  if digits.isEmpty then none
  else if digits.all (fun c => decide ('0' ≤ c) && decide (c ≤ '9')) then
    let n : Nat := digits.foldl (fun acc c => acc * 10 + (c.toNat - 48)) 0
    let v : Int := if neg then -(n : Int) else (n : Int)
    if -(2 ^ 63) ≤ v ∧ v ≤ 2 ^ 63 - 1 then some v else none
  else none
/-- A parsed IPv4 address (the result of net.ParseIP(...).To4()), as four
octets.  The embedding passes addresses already parsed; a Go nil / non-IPv4
result is represented by Option.none at the use sites. -/
structure IPv4 where
  a : Nat
  b : Nat
  c : Nat
  d : Nat
deriving DecidableEq, Repr
/-- Numeric value of the four octets, big-endian. -/
def IPv4.toNat (m : IPv4) : Nat :=
  ((m.a * 256 + m.b) * 256 + m.c) * 256 + m.d
/-- Models net.IPMask.Size() on a 4-byte mask: returns the number of leading
one bits when the mask is contiguous (ones followed by zeros across the 32
bits), and none otherwise (the Go function then reports bits = 0, which the
caller rejects). -/
def maskSize (m : IPv4) : Option Nat :=
  (List.range 33).find? (fun k => m.toNat == 2 ^ 32 - 2 ^ (32 - k))
/-- Semantic fields of the AddressReservation gossip record
(internal/api/openmanet/v1).  Records arrive as bytes; the embedding
represents a record whose UnmarshalVT failed as Option.none at use sites. -/
structure AddressReservation where
  Mac : String
  StaticIp : String
  ReservationCidr : String
  UciDhcpStart : String
  UciDhcpLimit : String
  RequestingReservation : Bool
deriving DecidableEq, Repr
/-! ## CalculateAvailableDHCPStart (unnamed Go file, DHCP helpers) -/
/-- DHCPRange from the Go sources: a closed range of DHCP start offsets. -/
structure DHCPRange where
  Start : Int
  End : Int
deriving DecidableEq, Repr
/-- Faithful translation of rangesOverlap: two closed ranges overlap iff
start1 <= end2 and start2 <= end1. -/
def rangesOverlap (start1 end1 start2 end2 : Int) : Bool :=
  decide (start1 ≤ end2) && decide (start2 ≤ end1)
/-- The range-collection loop of CalculateAvailableDHCPStart: records that
fail to unmarshal are skipped, start and limit are parsed with strconv.Atoi
(parse failures skip the record), and only pairs with start > 0 and
limit > 0 produce the closed range [start, start+limit-1]. -/
def collectRanges (records : List (Option AddressReservation)) : List DHCPRange :=
  records.filterMap fun rec =>
    match rec with
    | none => none
    | some addrRes =>
      match atoi addrRes.UciDhcpStart, atoi addrRes.UciDhcpLimit with
      | some start, some limit =>
        if 0 < start ∧ 0 < limit then some ⟨start, start + limit - 1⟩ else none
      | _, _ => none
/-- The candidate-search loop of CalculateAvailableDHCPStart.  On a conflict
with an existing range the candidate jumps past that range (candidate :=
existing.End + 1), which strictly shrinks the set of ranges whose End is
still at or beyond the candidate; the loop therefore performs at most
ranges.length + 1 iterations.  The Go loop is unbounded; here it runs on a
fuel counter, and searchGo_fuel_stable below shows that any fuel beyond
ranges.length suffices, so the fuelled function agrees with the unbounded
loop. -/
def searchGo (ranges : List DHCPRange) (networkSize desiredLimit : Int) :
    Nat → Int → Option Int
  | 0, _ => none
  | fuel + 1, candidate =>
    if candidate + desiredLimit - 1 ≤ networkSize then
      match ranges.find? (fun existing =>
          rangesOverlap candidate (candidate + desiredLimit - 1)
            existing.Start existing.End) with
      | none => some candidate
      | some existing => searchGo ranges networkSize desiredLimit fuel (existing.End + 1)
    else none
/-- Faithful translation of CalculateAvailableDHCPStart.  The networkAddr and
subnetMask arguments stand for the results of net.ParseIP(...).To4() on the
two strings: none covers both a parse failure and a non-IPv4 address, each of
which makes the Go function return an error.  The Go code sorts the collected
ranges with sort.Slice by Start; List.insertionSort by the same key is used
here (searchGo is insensitive to the order, see the lemmas below, so any
sort by Start yields the same result).  The two search
passes start at candidate 100 and candidate 1. -/
def CalculateAvailableDHCPStart (records : List (Option AddressReservation))
    (networkAddr subnetMask : Option IPv4) (desiredLimit : Int) :
    Except String Int :=
  if desiredLimit ≤ 0 then .error "desiredLimit must be greater than 0"
  else match networkAddr with
  | none => .error "invalid network address"
  | some _ =>
    match subnetMask with
    | none => .error "invalid subnet mask"
    | some mask =>
      match maskSize mask with
      | none => .error "invalid subnet mask"
      | some ones =>
        let networkSize : Int := 2 ^ (32 - ones) - 2
        if networkSize ≤ 0 then .error "network size too small"
        else
          let existingRanges := collectRanges records
          let sorted := existingRanges.insertionSort
            (fun x y => x.Start ≤ y.Start)
          match searchGo sorted networkSize desiredLimit (sorted.length + 1) 100 with
          | some candidate => .ok candidate
          | none =>
            match searchGo sorted networkSize desiredLimit (sorted.length + 1) 1 with
            | some candidate => .ok candidate
            | none => .error "no available DHCP range found"
/-- A candidate start fits iff its closed range lies within the usable
network size and overlaps none of the occupied ranges. -/
def fitsDHCP (ranges : List DHCPRange) (networkSize desiredLimit c : Int) : Prop :=
  c + desiredLimit - 1 ≤ networkSize ∧
  ∀ r ∈ ranges, rangesOverlap c (c + desiredLimit - 1) r.Start r.End = false
/-! ## SelectAvailableStaticIP (internal/network/uci_network.go) -/
/-- The reserved-IP collection loop of SelectAvailableStaticIP: records that
fail to unmarshal are skipped; every non-empty StaticIp is reserved. -/
def reservedIPsOf (records : List (Option AddressReservation)) : List String :=
  records.filterMap fun rec =>
    match rec with
    | none => none
    | some addrRes => if addrRes.StaticIp ≠ "" then some addrRes.StaticIp else none
/-- Gateway-mode candidate order: 10.41.0.x for x from 1 to 254 (the Go loop
runs fourthOctet from 1 while fourthOctet < 255). -/
def gatewayModeCandidates : List String :=
  (List.range' 1 254).map fun fourthOctet => "10.41.0." ++ toString fourthOctet
/-- Normal-mode candidate order: 10.41.t.h for t from 1 to 255 skipping 253
and 254, and h from 1 to 254 (the Go loop runs fourthOctet from 1 while
fourthOctet < 255; its inner fourthOctet == 255 skip is unreachable). -/
def normalModeCandidates : List String :=
  ((List.range' 1 255).filter fun thirdOctet =>
      !(thirdOctet == 253 || thirdOctet == 254)).flatMap
    fun thirdOctet =>
      (List.range' 1 254).map fun fourthOctet =>
        "10.41." ++ toString thirdOctet ++ "." ++ toString fourthOctet
/-- Faithful translation of SelectAvailableStaticIP: collect reserved IPs,
then return the first candidate (in the order above) that is not reserved;
error when every candidate is reserved.  The Go nested loops with an early
return are expressed as find? over the candidate list. -/
def SelectAvailableStaticIP (records : List (Option AddressReservation))
    (gatewayMode : Bool) : Except String String :=
  let reservedIPs := reservedIPsOf records
  if gatewayMode then
    match gatewayModeCandidates.find?
        (fun candidateIP => !(reservedIPs.contains candidateIP)) with
    | some candidateIP => .ok candidateIP
    | none => .error "no available IP addresses in 10.41.0.0/24 range"
  else
    match normalModeCandidates.find?
        (fun candidateIP => !(reservedIPs.contains candidateIP)) with
    | some candidateIP => .ok candidateIP
    | none => .error "no available IP addresses in 10.41.0.0/16 range"
/-- Sample reservation record used by concrete checks. -/
def sampleReservedA : AddressReservation :=
  { Mac := "aa", StaticIp := "10.41.0.1", ReservationCidr := "",
    UciDhcpStart := "", UciDhcpLimit := "", RequestingReservation := false }
/-! ## Mesh probe (internal/batman-adv) -/
/-- Fields of the batctl mesh JSON consumed by the embedded operations
(gw_mode and hard_address; the remaining JSON fields of the Go MeshConfig
struct are never read by the functions under verification). -/
structure MeshConfig where
  GwMode : String
  HardAddress : String
deriving DecidableEq, Repr
/-- Faithful translation of MeshConfig.IsGatewayMode. -/
def MeshConfig.IsGatewayMode (m : MeshConfig) : Bool :=
  m.GwMode == "server"
/-- Fields of a batctl gateway-list entry consumed by the embedded
operations. -/
structure BatmanGateway where
  HardIfname : String
  OrigAddress : String
  Best : Bool
  Throughput : Int
  Router : String
deriving DecidableEq, Repr
/-- Faithful translation of Gateways.GetBest: the first entry flagged best,
or none when no entry is flagged (the Go function returns nil then). -/
def Gateways.GetBest (gws : List BatmanGateway) : Option BatmanGateway :=
  gws.find? (fun gw => gw.Best)
/-- Faithful translation of GetMeshConfig: the subprocess invocation
(exec.Command with arguments) and the JSON decoding are passed as explicit
functions.  The Go function builds the command as exec.Command("batctl",
"mj") without consulting its iface parameter. -/
def GetMeshConfig (iface : String)
    (execOutput : List String → Except String String)
    (unmarshalMeshConfig : String → Except String MeshConfig) :
    Except String MeshConfig :=
  match execOutput ["mj"] with
  | .error err => .error err
  | .ok output => unmarshalMeshConfig output
/-- Faithful translation of GetMeshGateways: the command is
exec.Command("batctl", "gwj"); the iface parameter is never consulted. -/
def GetMeshGateways (iface : String)
    (execOutput : List String → Except String String)
    (unmarshalGateways : String → Except String (List BatmanGateway)) :
    Except String (List BatmanGateway) :=
  match execOutput ["gwj"] with
  | .error err => .error err
  | .ok output => unmarshalGateways output
/-! ## PTT press and release (internal/ptt/comms.go) -/
/-- Evdev key-event type constant EV_KEY. -/
def EV_KEY : Nat := 1
/-- An evdev input event as read by monitorPTT; the Go field named Type is
called EvType here because Type is reserved in Lean. -/
structure InputEvent where
  EvType : Nat
  Code : Nat
  Value : Int
deriving DecidableEq, Repr
/-- Tone frames enqueued on the playback buffer by the PTT control path. -/
inductive ToneFrame where
  | startTone
  | stopTone
deriving DecidableEq, Repr
/-- The PTT state shared between the HID monitor and the audio path: the
mutex-protected broadcasting flag, the playback buffer contents produced by
the control path, and instrumentation counting the calls to
bcastStream.Start and bcastStream.Stop. -/
structure PTTState where
  broadcasting : Bool
  playbackBuffer : List ToneFrame
  micStartCalls : Nat
  micStopCalls : Nat
deriving DecidableEq, Repr
/-- The key-match test of monitorPTT: the configured key is either "any" or
a decimal code in [0, 65535] equal to the event code. -/
def keyMatches (pttKey : String) (code : Nat) : Bool :=
  pttKey == "any" ||
    (match atoi pttKey with
     | some kc => decide (0 ≤ kc) && decide (kc ≤ 65535) && (code == kc.toNat)
     | none => false)
/-- Faithful translation of PTTConfig.beginTransmission: a press while
already broadcasting is ignored; otherwise the flag is set, the playback
buffer is drained and the start tone queued, and bcastStream.Start is
called; when Start fails the flag is reset (startOk gives the outcome of
the Start call). -/
def beginTransmission (startOk : Bool) (s : PTTState) : PTTState :=
  if s.broadcasting then s
  else
    let s1 := { s with broadcasting := true }
    let s2 := { s1 with playbackBuffer := [ToneFrame.startTone] }
    let s3 := { s2 with micStartCalls := s2.micStartCalls + 1 }
    if startOk then s3 else { s3 with broadcasting := false }
/-- Faithful translation of PTTConfig.endTransmission: a release while idle
is ignored; otherwise bcastStream.Stop is called (a Stop error is only
logged), the playback buffer is drained and the stop tone queued, and the
flag is cleared. -/
def endTransmission (s : PTTState) : PTTState :=
  if !s.broadcasting then s
  else
    let s1 := { s with micStopCalls := s.micStopCalls + 1 }
    let s2 := { s1 with playbackBuffer := [ToneFrame.stopTone] }
    { s2 with broadcasting := false }
/-- One iteration of the monitorPTT event loop for one HID event: non-KEY
events and non-matching codes are skipped; value 1 presses call
beginTransmission; value 0 releases call endTransmission only when
currently broadcasting. -/
def monitorPTTStep (pttKey : String) (s : PTTState) (ev : InputEvent)
    (startOk : Bool) : PTTState :=
  if ev.EvType != EV_KEY then s
  else if !(keyMatches pttKey ev.Code) then s
  else if ev.Value == 1 then beginTransmission startOk s
  else if ev.Value == 0 then
    if s.broadcasting then endTransmission s else s
  else s
/-- A sequence of HID events processed in order; each event carries the
outcome its Start call would have. -/
def runPTTEvents (pttKey : String) (s : PTTState)
    (evs : List (InputEvent × Bool)) : PTTState :=
  evs.foldl (fun st e => monitorPTTStep pttKey st e.1 e.2) s
/-! ## IP addresses and interfaces (internal/network, internal/gpsd) -/
/-- A non-nil Go net.IP: either a parsed IPv4 address or an IPv6 address
carried by its textual form (the verified operations only inspect IPv6
addresses through To4, which rejects them). -/
inductive IPAddr where
  | v4 (a b c d : Nat)
  | v6 (r : String)
deriving DecidableEq, Repr
/-- Models net.IP.To4: an IPv4 address survives, an IPv6 address yields nil
(the 4-in-6 mapped form ::ffff:a.b.c.d is represented here directly as v4,
matching what To4 produces for it). -/
def IPAddr.To4 : IPAddr → Option IPAddr
  | .v4 a b c d => some (.v4 a b c d)
  | .v6 _ => none
/-- Models net.IP.IsLoopback on the represented forms. -/
def IPAddr.IsLoopback : IPAddr → Bool
  | .v4 a _ _ _ => a == 127
  | .v6 r => r == "::1"
/-- Models net.IP.IsUnspecified on the represented forms. -/
def IPAddr.IsUnspecified : IPAddr → Bool
  | .v4 a b c d => a == 0 && b == 0 && c == 0 && d == 0
  | .v6 r => r == "::"
/-- Models net.IP.String for a non-nil address. -/
def IPAddr.str : IPAddr → String
  | .v4 a b c d =>
      toString a ++ "." ++ toString b ++ "." ++ toString c ++ "." ++ toString d
  | .v6 r => r
/-- Models net.IP.String including the nil receiver, which Go prints as
the marker string for a nil address. -/
def ipString : Option IPAddr → String
  | none => "<nil>"
  | some ip => ip.str
/-- One address entry of a NetworkInterface (internal/gpsd network chunk);
both the address and the netmask may be Go-nil. -/
structure IPAddress where
  IP : Option IPAddr
  Netmask : Option IPAddr
deriving DecidableEq, Repr
/-- The NetworkInterface struct returned by GetInterfaceByName.  When the
interface is missing or enumeration fails the Go function returns the zero
value: empty name, empty MAC and an empty address list. -/
structure NetworkInterface where
  Name : String
  MAC : String
  IP : List IPAddress
deriving DecidableEq, Repr
/-! ## Kernel default route (internal/network/route.go) -/
/-- A default-route entry as returned by GetDefaultRoute; its gateway is
always non-nil because the scan skips entries without a gateway. -/
structure Route where
  Gateway : IPAddr
  Interface : String
  Metric : Int
deriving DecidableEq, Repr
/-- The kernel routing state visible to the embedded route helpers: the
IPv4 main-table default route found by the netlink scan (none when no
default route exists), and the outcomes of the three netlink calls the
helpers make (RouteList, LinkByName, RouteReplace). -/
structure KernelState where
  defaultRoute : Option Route
  routeListOk : Bool
  linkOk : Bool
  replaceOk : Bool
deriving DecidableEq, Repr
/-- Faithful translation of GetDefaultRoute: a RouteList failure is an
error; otherwise the scan yields the default route (destination nil,
gateway non-nil) or the no-default-route error. -/
def GetDefaultRoute (k : KernelState) : Except String Route :=
  if !k.routeListOk then .error "failed to list routes"
  else match k.defaultRoute with
  | some r => .ok r
  | none => .error "no default route found"
/-- Faithful translation of ReplaceDefaultRoute (route.go, one-argument
version): read the current default route (propagating its error), resolve
the link of that route, then atomically RouteReplace with the new gateway,
keeping the current route interface and metric.  Any error leaves the
kernel state unchanged. -/
def ReplaceDefaultRoute (newGateway : IPAddr) (k : KernelState) :
    Except String Unit × KernelState :=
  match GetDefaultRoute k with
  | .error e => (.error ("failed to get current default route: " ++ e), k)
  | .ok currentRoute =>
    if !k.linkOk then
      (.error ("failed to get interface " ++ currentRoute.Interface), k)
    else if !k.replaceOk then (.error "failed to replace default route", k)
    else
      (.ok (), { k with
        defaultRoute := some { Gateway := newGateway,
                               Interface := currentRoute.Interface,
                               Metric := currentRoute.Metric } })
/-- Modelled from the spec: the two-argument ReplaceDefaultRoute(gateway,
device) called by the gateway receive tick is absent from the sources (only
its call sites and its test appear).  Per the specification it atomically
replaces the IPv4 main-table default route with the given gateway on the
given device, preserving the existing metric, and installs a route when
none exists (the metric of a freshly installed route is taken as 0). -/
def ReplaceDefaultRouteDev (gateway : IPAddr) (device : String)
    (k : KernelState) : Except String Unit × KernelState :=
  if !k.replaceOk then (.error "failed to replace default route", k)
  else match k.defaultRoute with
  | some currentRoute =>
      (.ok (), { k with
        defaultRoute := some { Gateway := gateway, Interface := device,
                               Metric := currentRoute.Metric } })
  | none =>
      (.ok (), { k with
        defaultRoute := some { Gateway := gateway, Interface := device,
                               Metric := 0 } })
/-! ## Gateway worker (unnamed mgmt chunk) -/
/-- Semantic fields of the Gateway gossip record. -/
structure GatewayRecord where
  Mac : String
  Ipaddr : String
  Hostname : String
deriving DecidableEq, Repr
/-- Outcome of one Go worker tick: a normal completion or a runtime panic
(nil-pointer dereference or index out of range); the payload carries the
state reached when the panic fires. -/
inductive GoOutcome (α : Type) where
  | ok (a : α)
  | panicked (a : α)
deriving DecidableEq, Repr
/-- The hostname fallback shared by the send ticks: a failed os.Hostname
lookup is logged and replaced by "unknown". -/
def hostnameOr : Except String String → String
  | .ok hn => hn
  | .error _ => "unknown"
/-- Environment of one gateway send tick: the mesh probe result, the bridge
interface as enumerated, and the hostname lookup. -/
structure GatewaySendEnv where
  meshCfg : Except String MeshConfig
  iface : NetworkInterface
  hostname : Except String String
deriving Repr
/-- Faithful translation of GatewayWorker.StartSend (one tick): on a mesh
probe error nothing is sent; in gateway-server mode, with a non-empty
address list whose first entry passes To4, the record carries the mesh
hard address, the first interface address and the hostname (or "unknown"
when the hostname lookup failed).  The value returned is the record passed
to the Alfred Set call, none when nothing is published (marshalling of the
record is total in the model; a failed Set is only logged). -/
def gatewaySendTick (env : GatewaySendEnv) : Option GatewayRecord :=
  match env.meshCfg with
  | .error _ => none
  | .ok meshCfg =>
    if meshCfg.IsGatewayMode then
      let hostname := hostnameOr env.hostname
      match env.iface.IP with
      | [] => none
      | first :: _ =>
        match first.IP with
        | none => none
        | some ip0 =>
          match ip0.To4 with
          | none => none
          | some _ =>
            some { Mac := meshCfg.HardAddress, Ipaddr := ipString first.IP,
                   Hostname := hostname }
    else none
/-- Environment of one gateway receive tick. -/
structure GatewayReceiveEnv where
  meshCfg : Except String MeshConfig
  records : Except String (List (Option GatewayRecord))
  batGwys : Except String (List BatmanGateway)
  parseIP : String → Option IPAddr
  ifaceName : String
/-- Does a received record carry the given MAC (a record that failed to
unmarshal matches nothing)? -/
def recMatches (mac : String) : Option GatewayRecord → Bool
  | none => false
  | some g => g.Mac == mac
/-- The per-record body of the single-gateway branch of
GatewayWorker.StartReceive: on a MAC match, parse the advertised address,
read the current default route (an error skips the record), skip when the
route already points at the parsed address, and otherwise replace the
default route (two-argument form) when the parse succeeded. -/
def processGatewayRecord (env : GatewayReceiveEnv) (batGw : BatmanGateway)
    (k : KernelState) (rec : Option GatewayRecord) : KernelState :=
  match rec with
  | none => k
  | some gatewayData =>
    if gatewayData.Mac == batGw.OrigAddress then
      let ipParsed := env.parseIP gatewayData.Ipaddr
      match GetDefaultRoute k with
      | .error _ => k
      | .ok currentDefaultRoute =>
        match ipParsed with
        | some ip =>
          if currentDefaultRoute.Gateway == ip then k
          else (ReplaceDefaultRouteDev ip env.ifaceName k).2
        | none => k
    else k
/-- The multi-gateway branch of GatewayWorker.StartReceive: the first
record matching the best gateway MAC triggers a route replacement and the
loop breaks. -/
def processGatewayRecordsMulti (env : GatewayReceiveEnv)
    (batGw : BatmanGateway) :
    KernelState → List (Option GatewayRecord) → KernelState
  | k, [] => k
  | k, rec :: rest =>
    match rec with
    | none => processGatewayRecordsMulti env batGw k rest
    | some gatewayData =>
      if gatewayData.Mac == batGw.OrigAddress then
        match env.parseIP gatewayData.Ipaddr with
        | some ip => (ReplaceDefaultRouteDev ip env.ifaceName k).2
        | none => k
      else processGatewayRecordsMulti env batGw k rest
/-- Faithful translation of GatewayWorker.StartReceive (one tick).  Errors
from the mesh probe, the Alfred request or the gateway-list query end the
tick; gateway-server mode skips it.  With exactly one batman-adv gateway
the tick takes GetBest of the list and dereferences it without a nil
check: when no entry is flagged best this is a Go nil-pointer dereference,
modelled as a panicked outcome.  The multi-gateway branch dereferences
GetBest the same way. -/
def gatewayReceiveTick (env : GatewayReceiveEnv) (k : KernelState) :
    GoOutcome KernelState :=
  match env.meshCfg with
  | .error _ => .ok k
  | .ok meshCfg =>
    if meshCfg.IsGatewayMode then .ok k
    else match env.records with
    | .error _ => .ok k
    | .ok record =>
      match env.batGwys with
      | .error _ => .ok k
      | .ok batGwys =>
        if batGwys.length == 0 then .ok k
        else if batGwys.length == 1 then
          match Gateways.GetBest batGwys with
          | none => .panicked k
          | some batGw => .ok (record.foldl (processGatewayRecord env batGw) k)
        else
          match Gateways.GetBest batGwys with
          | none => .panicked k
          | some batGw => .ok (processGatewayRecordsMulti env batGw k record)
/-! ## Node-presence worker (internal/mgmt/node.go) -/
/-- Semantic fields of the Node gossip record. -/
structure NodeRecord where
  Mac : String
  Hostname : String
  Ipaddr : String
deriving DecidableEq, Repr
/-- Environment of one node send tick. -/
structure NodeSendEnv where
  iface : NetworkInterface
  hostname : Except String String
deriving Repr
/-- Faithful translation of NodeDataWorker.StartSend (one tick): the
record carries the interface MAC, the hostname (or "unknown") and the
string form of the first interface address.  The Go code indexes
iface.IP[0] without a length check: an interface with no addresses makes
the tick panic with an index-out-of-range. -/
def nodeSendTick (env : NodeSendEnv) : GoOutcome (Option NodeRecord) :=
  let hostname := hostnameOr env.hostname
  match env.iface.IP with
  | [] => .panicked none
  | first :: _ =>
    .ok (some { Mac := env.iface.MAC, Hostname := hostname,
                Ipaddr := ipString first.IP })
/-! ## UCI configuration state (internal/network, digineo/go-uci adapter) -/
/-- Models strconv.Itoa. -/
def itoa (i : Int) : String :=
  if i < 0 then "-" ++ toString i.natAbs else toString i.natAbs
/-- The UCI network section fields written and read by the embedded
operations. -/
structure UCINetwork where
  Proto : String
  NetMask : String
  IPAddr : String
  Gateway : String
  DNS : String
  Device : String
  IPV6Assignment : String
  IPV6IfaceID : String
  IPV6Class : String
deriving DecidableEq, Repr
/-- A UCI network section with every option unset. -/
def emptyUCINetwork : UCINetwork :=
  { Proto := "", NetMask := "", IPAddr := "", Gateway := "", DNS := "",
    Device := "", IPV6Assignment := "", IPV6IfaceID := "", IPV6Class := "" }
/-- The UCI DHCP pool section fields written and read by the embedded
operations. -/
structure UCIDHCP where
  Interface : String
  Start : String
  Limit : String
  LeaseTime : String
  Ignore : String
  DHCPOption : String
  Ra : String
  RaDefault : String
  Force : String
deriving DecidableEq, Repr
/-- A UCI DHCP section with every option unset. -/
def emptyUCIDHCP : UCIDHCP :=
  { Interface := "", Start := "", Limit := "", LeaseTime := "", Ignore := "",
    DHCPOption := "", Ra := "", RaDefault := "", Force := "" }
/-- Persistent UCI state touched by the address-reservation engine: the
network and dhcp namespaces as association lists of sections, and the
openmanetd dhcpconfigured option (the empty string when unset). -/
structure UciState where
  network : List (String × UCINetwork)
  dhcp : List (String × UCIDHCP)
  dhcpConfigured : String
deriving DecidableEq, Repr
/-- Association-list lookup of a section. -/
def getSection {α : Type} (l : List (String × α)) (key : String) : Option α :=
  (l.find? (fun p => p.1 == key)).map (fun p => p.2)
/-- Association-list update or insert of a section. -/
def setSection {α : Type} (l : List (String × α)) (key : String) (v : α) :
    List (String × α) :=
  match l with
  | [] => [(key, v)]
  | (k2, v2) :: rest =>
    if k2 == key then (key, v) :: rest else (k2, v2) :: setSection rest key v
/-- One SetType call of the Go setters: an option is written only when the
new value is non-empty, otherwise the stored value is kept. -/
def setOpt (newVal oldVal : String) : String :=
  if newVal ≠ "" then newVal else oldVal
/-- The field-wise effect of SetNetworkConfigWithReader on one section. -/
def applyUCINetwork (old cfg : UCINetwork) : UCINetwork :=
  { Proto := setOpt cfg.Proto old.Proto,
    NetMask := setOpt cfg.NetMask old.NetMask,
    IPAddr := setOpt cfg.IPAddr old.IPAddr,
    Gateway := setOpt cfg.Gateway old.Gateway,
    DNS := setOpt cfg.DNS old.DNS,
    Device := setOpt cfg.Device old.Device,
    IPV6Assignment := setOpt cfg.IPV6Assignment old.IPV6Assignment,
    IPV6IfaceID := setOpt cfg.IPV6IfaceID old.IPV6IfaceID,
    IPV6Class := setOpt cfg.IPV6Class old.IPV6Class }
/-- The field-wise effect of SetDHCPConfigWithReader on one section. -/
def applyUCIDHCP (old cfg : UCIDHCP) : UCIDHCP :=
  { Interface := setOpt cfg.Interface old.Interface,
    Start := setOpt cfg.Start old.Start,
    Limit := setOpt cfg.Limit old.Limit,
    LeaseTime := setOpt cfg.LeaseTime old.LeaseTime,
    Ignore := setOpt cfg.Ignore old.Ignore,
    DHCPOption := setOpt cfg.DHCPOption old.DHCPOption,
    Ra := setOpt cfg.Ra old.Ra,
    RaDefault := setOpt cfg.RaDefault old.RaDefault,
    Force := setOpt cfg.Force old.Force }
/-- Faithful translation of SetNetworkConfigWithReader: add the section
when absent, write each non-empty option, then commit.  The commit
persists atomically (the digineo go-uci commit writes the buffered tree in
one step), so a SetType or commit failure, modelled by the ok flag, leaves
the persistent state unchanged. -/
def SetNetworkConfigWithReader (sectionName : String) (cfg : UCINetwork)
    (ok : Bool) (uci : UciState) : Except String Unit × UciState :=
  if !ok then (.error "failed to commit network config", uci)
  else
    let old := (getSection uci.network sectionName).getD emptyUCINetwork
    (.ok (), { uci with
      network := setSection uci.network sectionName (applyUCINetwork old cfg) })
/-- Faithful translation of SetDHCPConfigWithReader, as for the network
section (the trailing reload re-reads the on-disk state and is covered by
the same ok flag). -/
def SetDHCPConfigWithReader (sectionName : String) (cfg : UCIDHCP)
    (ok : Bool) (uci : UciState) : Except String Unit × UciState :=
  if !ok then (.error "failed to commit DHCP config", uci)
  else
    let old := (getSection uci.dhcp sectionName).getD emptyUCIDHCP
    (.ok (), { uci with
      dhcp := setSection uci.dhcp sectionName (applyUCIDHCP old cfg) })
/-- Faithful translation of GetDHCPConfigWithReader: reload the tree (an
error propagates), then read the section options (missing options stay
empty). -/
def GetDHCPConfigWithReader (sectionName : String) (reloadOk : Bool)
    (uci : UciState) : Except String UCIDHCP :=
  if !reloadOk then .error "failed to reload DHCP config"
  else .ok ((getSection uci.dhcp sectionName).getD emptyUCIDHCP)
/-- Faithful translation of IsDHCPConfiguredWithReader: the values "0" and
empty mean unconfigured, any other value is parsed with strconv.Atoi (a
parse failure is an error) and compared with 1. -/
def IsDHCPConfiguredWithReader (uci : UciState) : Except String Bool :=
  if uci.dhcpConfigured == "0" || uci.dhcpConfigured == "" then .ok false
  else match atoi uci.dhcpConfigured with
  | none => .error "invalid dhcpconfigured value"
  | some configured => .ok (configured == 1)
/-- Faithful translation of SetDHCPConfiguredWithReader: write
dhcpconfigured = "1" and commit; the ok flag models a SetType or commit
failure, which leaves the persistent state unchanged. -/
def SetDHCPConfiguredWithReader (ok : Bool) (uci : UciState) :
    Except String Unit × UciState :=
  if !ok then (.error "failed to commit OpenMANET config", uci)
  else (.ok (), { uci with dhcpConfigured := "1" })
/-! ## Address-reservation worker (internal/system/system.go mgmt chunk) -/
/-- Models net.IPNet.String for the canonical v4 masks exercised by the
claims: address slash prefix length; other mask forms are not produced by
the verified flows and are rendered with a marker suffix. -/
def IPNetString (ip : IPAddr) (mask : IPAddr) : String :=
  match mask with
  | .v4 a b c d =>
    match maskSize ⟨a, b, c, d⟩ with
    | some ones => ip.str ++ "/" ++ toString ones
    | none => ip.str ++ "/" ++ "noncanonical"
  | .v6 r => ip.str ++ "/" ++ r
/-- Faithful translation of NetworkInterface.GetCIDR: one CIDR string per
address entry whose IP and netmask are both non-nil. -/
def GetCIDR (ni : NetworkInterface) : List String :=
  ni.IP.filterMap fun ipAddr =>
    match ipAddr.IP, ipAddr.Netmask with
    | some ip, some mask => some (IPNetString ip mask)
    | _, _ => none
/-- The normalizedIface computation of the worker: strings.CutPrefix of
"br-"; when the interface name is not br-prefixed the variable keeps its
zero value, the empty string. -/
def normalizeIfaceName (name : String) : String :=
  match name.toList with
  | 'b' :: 'r' :: '-' :: rest => String.mk rest
  | _ => ""
/-- Result of createAddressReservationResponse: a record, a returned
error, or a Go panic (GetCIDR may be empty while the address list is not,
and the code indexes cidr[0] unchecked). -/
inductive RespResult where
  | ok (a : AddressReservation)
  | err (e : String)
  | panicked
deriving DecidableEq, Repr
/-- Faithful translation of
AddressReservationWorker.createAddressReservationResponse. -/
def createAddressReservationResponse (ifaceName : String)
    (iface : NetworkInterface) (reloadOk : Bool) (uci : UciState) :
    RespResult :=
  let dhcpiface := normalizeIfaceName ifaceName
  match GetDHCPConfigWithReader dhcpiface reloadOk uci with
  | .error e => .err e
  | .ok dhcp =>
    match iface.IP with
    | [] => .err "interface has no IP address"
    | first :: _ =>
      match first.IP with
      | none => .err "interface has no valid IPv4 address"
      | some ip =>
        if ip.IsUnspecified || ip.IsLoopback || (ip.To4 == none) then
          .err "interface has no valid IPv4 address"
        else
          match GetCIDR iface with
          | [] => .panicked
          | cidr0 :: _ =>
            .ok { Mac := iface.MAC, StaticIp := ipString first.IP,
                  ReservationCidr := cidr0, UciDhcpStart := dhcp.Start,
                  UciDhcpLimit := dhcp.Limit,
                  RequestingReservation := false }
/-- Faithful translation of AddressReservationWorker.StartSend (one tick):
when the node is unconfigured, publish a requesting record with the
interface MAC and first address; the Go code indexes iface.IP[0] without a
length check, so an interface without addresses panics the tick. -/
def addressReservationSendTick (iface : NetworkInterface) (uci : UciState) :
    GoOutcome (Option AddressReservation) :=
  match IsDHCPConfiguredWithReader uci with
  | .error _ => .ok none
  | .ok configured =>
    if !configured then
      match iface.IP with
      | [] => .panicked none
      | first :: _ =>
        .ok (some { Mac := iface.MAC, StaticIp := ipString first.IP,
                    ReservationCidr := "", UciDhcpStart := "",
                    UciDhcpLimit := "", RequestingReservation := true })
    else .ok none
/-- Does a received record carry a reservation request from another node
(requesting_reservation set and a MAC different from ours)? -/
def isRequestFromOther (mac : String) : Option AddressReservation → Bool
  | none => false
  | some addrRes => addrRes.RequestingReservation && addrRes.Mac != mac
/-- The configured-branch response loop of the receive tick: for each
record requesting a reservation from another node, build and publish the
response; response errors skip the record, a response panic aborts the
tick (the list collects the records handed to the Alfred Set call). -/
def respondLoop (ifaceName : String) (iface : NetworkInterface)
    (reloadOk : Bool) (uci : UciState) (acc : List AddressReservation) :
    List (Option AddressReservation) → GoOutcome (List AddressReservation)
  | [] => .ok acc
  | rec :: rest =>
    if isRequestFromOther iface.MAC rec then
      match createAddressReservationResponse ifaceName iface reloadOk uci with
      | .err _ => respondLoop ifaceName iface reloadOk uci acc rest
      | .panicked => .panicked acc
      | .ok resp =>
        respondLoop ifaceName iface reloadOk uci (acc ++ [resp]) rest
    else respondLoop ifaceName iface reloadOk uci acc rest
/-- The transition steps of the UNCONFIGURED receive branch, in the order
the code performs them. -/
inductive ARStep where
  | netWrite
  | dhcpWrite
  | reload
  | markConfigured
deriving DecidableEq, Repr
/-- Output of one receive tick: the persistent UCI state, the records
published, whether static-IP auto-selection was attempted, and the
successfully completed transition steps in execution order. -/
structure ARWRecvOut where
  uci : UciState
  published : List AddressReservation
  attemptedSelection : Bool
  steps : List ARStep
deriving DecidableEq, Repr
/-- Environment of one receive tick.  desiredLimit stands for the constant
network.DefaultDHCPAddressLimit, whose definition is not among the
sources; networkAddr and subnetMask are the parsed forms of the constants
DefaultNetworkAddress "10.41.0.0" and DefaultNetworkMask "255.255.0.0". -/
structure ARWReceiveEnv where
  ifaceName : String
  iface : NetworkInterface
  records : Except String (List (Option AddressReservation))
  meshCfg : Except String MeshConfig
  desiredLimit : Int
  dhcpReloadOk : Bool
  setNetworkOk : Bool
  setDhcpOk : Bool
  reloadNetworkOk : Bool
  setConfiguredOk : Bool
/-- The parsed form of network.DefaultNetworkAddress. -/
def DefaultNetworkAddressParsed : Option IPv4 := some ⟨10, 41, 0, 0⟩
/-- The parsed form of network.DefaultNetworkMask. -/
def DefaultNetworkMaskParsed : Option IPv4 := some ⟨255, 255, 0, 0⟩
/-- Faithful translation of AddressReservationWorker.StartReceive (one
tick).  Configured nodes only answer requests from other nodes.
Unconfigured nodes run the transition: select a static IP, write the
network section, compute the DHCP start, write the DHCP section, reload
the network service, then persist dhcp_configured = "1"; any failing step
ends the tick at once with the earlier writes already committed. -/
def addressReservationReceiveTick (env : ARWReceiveEnv) (uci : UciState) :
    GoOutcome ARWRecvOut :=
  match env.records with
  | .error _ => .ok ⟨uci, [], false, []⟩
  | .ok records =>
    match IsDHCPConfiguredWithReader uci with
    | .error _ => .ok ⟨uci, [], false, []⟩
    | .ok configured =>
      if configured then
        match respondLoop env.ifaceName env.iface env.dhcpReloadOk uci [] records with
        | .ok pubs => .ok ⟨uci, pubs, false, []⟩
        | .panicked pubs => .panicked ⟨uci, pubs, false, []⟩
      else
        match env.meshCfg with
        | .error _ => .ok ⟨uci, [], false, []⟩
        | .ok meshCfg =>
          match SelectAvailableStaticIP records meshCfg.IsGatewayMode with
          | .error _ => .ok ⟨uci, [], true, []⟩
          | .ok staticIP =>
            match SetNetworkConfigWithReader (normalizeIfaceName env.ifaceName)
                { Proto := "static", IPAddr := staticIP,
                  NetMask := "255.255.0.0", IPV6Class := "local",
                  IPV6IfaceID := "eui64", IPV6Assignment := "64",
                  Device := env.ifaceName, DNS := "1.1.1.1", Gateway := "" }
                env.setNetworkOk uci with
            | (.error _, uci1) => .ok ⟨uci1, [], true, []⟩
            | (.ok _, uci1) =>
              match CalculateAvailableDHCPStart records
                  DefaultNetworkAddressParsed DefaultNetworkMaskParsed
                  env.desiredLimit with
              | .error _ => .ok ⟨uci1, [], true, [.netWrite]⟩
              | .ok dhcpStart =>
                match SetDHCPConfigWithReader (normalizeIfaceName env.ifaceName)
                    { Interface := normalizeIfaceName env.ifaceName,
                      Start := itoa dhcpStart,
                      Limit := itoa env.desiredLimit, LeaseTime := "12h",
                      Ignore := "", DHCPOption := "", Ra := "",
                      RaDefault := "", Force := "1" }
                    env.setDhcpOk uci1 with
                | (.error _, uci2) => .ok ⟨uci2, [], true, [.netWrite]⟩
                | (.ok _, uci2) =>
                  if !env.reloadNetworkOk then
                    .ok ⟨uci2, [], true, [.netWrite, .dhcpWrite]⟩
                  else
                    match SetDHCPConfiguredWithReader env.setConfiguredOk uci2 with
                    | (.error _, uci3) =>
                      .ok ⟨uci3, [], true, [.netWrite, .dhcpWrite, .reload]⟩
                    | (.ok _, uci3) =>
                      .ok ⟨uci3, [], true,
                        [.netWrite, .dhcpWrite, .reload, .markConfigured]⟩
/-- The payload of a tick outcome, whether or not the tick panicked. -/
def GoOutcome.val {α : Type} : GoOutcome α → α
  | .ok a => a
  | .panicked a => a
/-- Environment of the C3 counterexample: every step succeeds except the
DHCP-section write. -/
def partialCommitEnv : ARWReceiveEnv :=
  { ifaceName := "br-ahwlan",
    iface := { Name := "br-ahwlan", MAC := "aa:aa", IP := [] },
    records := .ok [],
    meshCfg := .ok { GwMode := "server", HardAddress := "mm" },
    desiredLimit := 150,
    dhcpReloadOk := true, setNetworkOk := true, setDhcpOk := false,
    reloadNetworkOk := true, setConfiguredOk := true }
/-- An empty, unconfigured UCI state. -/
def uciEmpty0 : UciState :=
  { network := [], dhcp := [], dhcpConfigured := "0" }
/-- The UCI state after the counterexample tick: the network section for
the physical interface is committed, nothing else. -/
def uciAfterNetWrite : UciState :=
  { network := [("ahwlan",
      { Proto := "static", NetMask := "255.255.0.0", IPAddr := "10.41.0.1",
        Gateway := "", DNS := "1.1.1.1", Device := "br-ahwlan",
        IPV6Assignment := "64", IPV6IfaceID := "eui64",
        IPV6Class := "local" })],
    dhcp := [], dhcpConfigured := "0" }
/-- A configured UCI state used by concrete checks: dhcp_configured is "1"
and the DHCP pool of the physical interface is start 100, limit 150. -/
def c4Uci : UciState :=
  { network := [],
    dhcp := [("ahwlan",
      { Interface := "ahwlan", Start := "100", Limit := "150",
        LeaseTime := "12h", Ignore := "", DHCPOption := "", Ra := "",
        RaDefault := "", Force := "1" })],
    dhcpConfigured := "1" }
/-- A received record requesting a reservation from another node. -/
def c4Recs : List (Option AddressReservation) :=
  [some { Mac := "bb:bb", StaticIp := "", ReservationCidr := "",
          UciDhcpStart := "", UciDhcpLimit := "",
          RequestingReservation := true }]
/-- The receive environment of the configured node used by concrete
checks. -/
def c4Env : ARWReceiveEnv :=
  { ifaceName := "br-ahwlan",
    iface := { Name := "br-ahwlan", MAC := "aa:aa",
               IP := [{ IP := some (.v4 10 41 0 5),
                        Netmask := some (.v4 255 255 0 0) }] },
    records := .ok c4Recs,
    meshCfg := .ok { GwMode := "server", HardAddress := "mm" },
    desiredLimit := 150,
    dhcpReloadOk := true, setNetworkOk := true, setDhcpOk := true,
    reloadNetworkOk := true, setConfiguredOk := true }
/-- The response record the configured node publishes. -/
def c4Resp : AddressReservation :=
  { Mac := "aa:aa", StaticIp := "10.41.0.5",
    ReservationCidr := "10.41.0.5/16", UciDhcpStart := "100",
    UciDhcpLimit := "150", RequestingReservation := false }

/-! ## Claim C1: DHCP start selection -/

theorem length_filter_mono_of_imp {α : Type} (l : List α) (p q : α → Bool)
    (himp : ∀ a, q a = true → p a = true) :
    (l.filter q).length ≤ (l.filter p).length := by
  induction l with
  | nil => simp
  | cons y ys ih =>
    by_cases hq : q y = true
    · have hp := himp y hq
      simp [List.filter_cons, hq, hp, Nat.succ_le_succ ih]
    · have hq0 : q y = false := by
        cases h : q y
        · rfl
        · exact absurd h hq
      by_cases hp : p y = true
      · simp only [List.filter_cons, hq0, hp]
        simp only [if_true, if_false, Bool.false_eq_true]
        exact Nat.le_succ_of_le ih
      · have hp0 : p y = false := by
          cases h : p y
          · rfl
          · exact absurd h hp
        simp [List.filter_cons, hq0, hp0, ih]
theorem length_filter_lt_of_imp {α : Type} (l : List α) (p q : α → Bool) (x : α)
    (hmem : x ∈ l) (hpx : p x = true) (hqx : q x = false)
    (himp : ∀ a, q a = true → p a = true) :
    (l.filter q).length < (l.filter p).length := by
  induction l with
  | nil => cases hmem
  | cons y ys ih =>
    rcases List.mem_cons.mp hmem with rfl | hmem2
    · simp only [List.filter_cons, hpx, hqx]
      simp only [if_true, if_false, Bool.false_eq_true]
      exact Nat.lt_succ_of_le (length_filter_mono_of_imp ys p q himp)
    · by_cases hq : q y = true
      · have hp := himp y hq
        simp [List.filter_cons, hq, hp, Nat.succ_lt_succ (ih hmem2)]
      · have hq0 : q y = false := by
          cases h : q y
          · rfl
          · exact absurd h hq
        by_cases hp : p y = true
        · simp only [List.filter_cons, hq0, hp]
          simp only [if_true, if_false, Bool.false_eq_true]
          exact Nat.lt_succ_of_le (Nat.le_of_lt (ih hmem2))
        · have hp0 : p y = false := by
            cases h : p y
            · rfl
            · exact absurd h hp
          simp [List.filter_cons, hq0, hp0, ih hmem2]
theorem overlap_of_between (L : Int) (ex : DHCPRange) (c0 x : Int)
    (hov : rangesOverlap c0 (c0 + L - 1) ex.Start ex.End = true)
    (hcx : c0 ≤ x) (hxe : x ≤ ex.End) :
    rangesOverlap x (x + L - 1) ex.Start ex.End = true := by
  simp only [rangesOverlap, Bool.and_eq_true, decide_eq_true_eq] at hov ⊢
  exact ⟨hxe, le_trans hov.2 (by omega)⟩
theorem searchGo_some_spec (ranges : List DHCPRange) (ns L : Int) :
    ∀ fuel c0 c, searchGo ranges ns L fuel c0 = some c →
      fitsDHCP ranges ns L c ∧ c0 ≤ c ∧
        ∀ x, c0 ≤ x → x < c → ¬ fitsDHCP ranges ns L x := by
  intro fuel
  induction fuel with
  | zero => intro c0 c h; simp [searchGo] at h
  | succ fuel ih =>
    intro c0 c h
    simp only [searchGo] at h
    split at h
    case isTrue hcond =>
      split at h
      case h_1 hfind =>
        cases h
        refine ⟨⟨hcond, ?_⟩, le_refl _, ?_⟩
        · intro r hr
          have := List.find?_eq_none.mp hfind r hr
          simpa using this
        · intro x hx1 hx2; omega
      case h_2 ex hfind =>
        have hmem : ex ∈ ranges := List.mem_of_find?_eq_some hfind
        have hov := List.find?_some hfind
        have hle : c0 ≤ ex.End := by
          simp only [rangesOverlap, Bool.and_eq_true, decide_eq_true_eq] at hov
          exact hov.1
        obtain ⟨hfits, hge, hmin⟩ := ih (ex.End + 1) c h
        refine ⟨hfits, by omega, ?_⟩
        intro x hx1 hx2
        by_cases hsplit : x ≤ ex.End
        · intro hfx
          have := hfx.2 ex hmem
          rw [overlap_of_between L ex c0 x hov hx1 hsplit] at this
          cases this
        · exact hmin x (by omega) hx2
    case isFalse => cases h
theorem searchGo_none_spec (ranges : List DHCPRange) (ns L : Int) :
    ∀ fuel c0,
      (ranges.filter (fun r => decide (c0 ≤ r.End))).length < fuel →
      searchGo ranges ns L fuel c0 = none →
      ∀ x, c0 ≤ x → ¬ fitsDHCP ranges ns L x := by
  intro fuel
  induction fuel with
  | zero => intro c0 hlt; omega
  | succ fuel ih =>
    intro c0 hlt h x hx
    simp only [searchGo] at h
    split at h
    case isTrue hcond =>
      split at h
      case h_1 hfind => cases h
      case h_2 ex hfind =>
        have hmem : ex ∈ ranges := List.mem_of_find?_eq_some hfind
        have hov := List.find?_some hfind
        have hle : c0 ≤ ex.End := by
          simp only [rangesOverlap, Bool.and_eq_true, decide_eq_true_eq] at hov
          exact hov.1
        have hdec : (ranges.filter (fun r => decide (ex.End + 1 ≤ r.End))).length <
            (ranges.filter (fun r => decide (c0 ≤ r.End))).length := by
          refine length_filter_lt_of_imp ranges _ _ ex hmem ?_ ?_ ?_
          · simpa using hle
          · simp
          · intro a ha
            simp only [decide_eq_true_eq] at ha ⊢
            omega
        by_cases hsplit : x ≤ ex.End
        · intro hfx
          have := hfx.2 ex hmem
          rw [overlap_of_between L ex c0 x hov hx hsplit] at this
          cases this
        · exact ih (ex.End + 1) (by omega) h x (by omega)
    case isFalse hcond =>
      intro hfx
      have := hfx.1
      omega
theorem searchGo_fuel_stable (ranges : List DHCPRange) (ns L : Int) :
    ∀ fuel c0,
      (ranges.filter (fun r => decide (c0 ≤ r.End))).length < fuel →
      searchGo ranges ns L (fuel + 1) c0 = searchGo ranges ns L fuel c0 := by
  intro fuel
  induction fuel with
  | zero => intro c0 hlt; omega
  | succ fuel ih =>
    intro c0 hlt
    conv_lhs => rw [searchGo]
    conv_rhs => rw [searchGo]
    split
    case isTrue hcond =>
      cases hfind : ranges.find? (fun existing =>
          rangesOverlap c0 (c0 + L - 1) existing.Start existing.End) with
      | none => rfl
      | some ex =>
        have hmem : ex ∈ ranges := List.mem_of_find?_eq_some hfind
        have hov := List.find?_some hfind
        have hle : c0 ≤ ex.End := by
          simp only [rangesOverlap, Bool.and_eq_true, decide_eq_true_eq] at hov
          exact hov.1
        have hdec : (ranges.filter (fun r => decide (ex.End + 1 ≤ r.End))).length <
            (ranges.filter (fun r => decide (c0 ≤ r.End))).length := by
          refine length_filter_lt_of_imp ranges _ _ ex hmem ?_ ?_ ?_
          · simpa using hle
          · simp
          · intro a ha
            simp only [decide_eq_true_eq] at ha ⊢
            omega
        exact ih (ex.End + 1) (by omega)
    case isFalse => rfl
theorem fitsDHCP_perm_iff {l1 l2 : List DHCPRange} (h : List.Perm l1 l2)
    (ns L c : Int) : fitsDHCP l1 ns L c ↔ fitsDHCP l2 ns L c := by
  unfold fitsDHCP
  constructor
  · rintro ⟨h1, h2⟩
    exact ⟨h1, fun r hr => h2 r (h.mem_iff.mpr hr)⟩
  · rintro ⟨h1, h2⟩
    exact ⟨h1, fun r hr => h2 r (h.mem_iff.mp hr)⟩
/-- Claim C1: whenever CalculateAvailableDHCPStart returns a start offset c for a
mask with a well-defined prefix length, the closed range [c, c+L-1] fits
within the usable network size 2^(32-maskbits) - 2 and overlaps no occupied
range parsed from the records, and c is the lowest fitting candidate of the
first pass that succeeds: either the lowest fitting candidate at or above
100, or, when no candidate at or above 100 fits, the lowest fitting
candidate at or above 1. -/
theorem CalculateAvailableDHCPStart_spec (records : List (Option AddressReservation))
    (na m : IPv4) (L : Int) (ones : Nat) (c : Int)
    (hones : maskSize m = some ones)
    (hok : CalculateAvailableDHCPStart records (some na) (some m) L = .ok c) :
    fitsDHCP (collectRanges records) (2 ^ (32 - ones) - 2) L c ∧
      ((100 ≤ c ∧
        ∀ x, 100 ≤ x → x < c →
          ¬ fitsDHCP (collectRanges records) (2 ^ (32 - ones) - 2) L x) ∨
       ((∀ x, 100 ≤ x →
          ¬ fitsDHCP (collectRanges records) (2 ^ (32 - ones) - 2) L x) ∧
        1 ≤ c ∧
        ∀ x, 1 ≤ x → x < c →
          ¬ fitsDHCP (collectRanges records) (2 ^ (32 - ones) - 2) L x)) := by
  have hperm : List.Perm
      ((collectRanges records).insertionSort (fun x y => x.Start ≤ y.Start))
      (collectRanges records) := List.perm_insertionSort _ _
  simp only [CalculateAvailableDHCPStart] at hok
  split at hok
  · cases hok
  · rw [hones] at hok
    split at hok
    next heq => cases heq
    next ones2 heq =>
      injection heq with heq2
      subst heq2
      split at hok
      · cases hok
      · have hfuel : ∀ c0 : Int,
            (((collectRanges records).insertionSort
                (fun x y => x.Start ≤ y.Start)).filter
              (fun r => decide (c0 ≤ r.End))).length <
            ((collectRanges records).insertionSort
                (fun x y => x.Start ≤ y.Start)).length + 1 :=
          fun c0 => Nat.lt_succ_of_le (List.length_filter_le _ _)
        split at hok
        next cand h1 =>
          injection hok with hc
          subst hc
          obtain ⟨hfits, hge, hmin⟩ := searchGo_some_spec _ _ L _ _ _ h1
          refine ⟨(fitsDHCP_perm_iff hperm _ _ _).mp hfits, Or.inl ⟨hge, ?_⟩⟩
          intro x hx1 hx2 hfx
          exact hmin x hx1 hx2 ((fitsDHCP_perm_iff hperm _ _ _).mpr hfx)
        next h1 =>
          split at hok
          next cand h2 =>
            injection hok with hc
            subst hc
            obtain ⟨hfits, hge, hmin⟩ := searchGo_some_spec _ _ L _ _ _ h2
            have hnone := searchGo_none_spec _ _ L _ _ (hfuel 100) h1
            refine ⟨(fitsDHCP_perm_iff hperm _ _ _).mp hfits,
              Or.inr ⟨?_, hge, ?_⟩⟩
            · intro x hx hfx
              exact hnone x hx ((fitsDHCP_perm_iff hperm _ _ _).mpr hfx)
            · intro x hx1 hx2 hfx
              exact hmin x hx1 hx2 ((fitsDHCP_perm_iff hperm _ _ _).mpr hfx)
          next h2 => cases hok
/-- Sanity check of the embedding on a concrete input: one occupied range
[100, 249] pushes the first pass to return offset 250 for a /16 network. -/
example :
    CalculateAvailableDHCPStart
      [some { Mac := "aa", StaticIp := "10.41.0.5", ReservationCidr := "",
              UciDhcpStart := "100", UciDhcpLimit := "150",
              RequestingReservation := false }]
      (some ⟨10, 41, 0, 0⟩) (some ⟨255, 255, 0, 0⟩) 150 = .ok 250 := by rfl
example :
    CalculateAvailableDHCPStart [] (some ⟨10, 41, 0, 0⟩) (some ⟨255, 255, 0, 0⟩) 150 =
      .ok 100 := by rfl
/-- Witness: the specification theorem applied at a concrete input. -/
theorem CalculateAvailableDHCPStart_spec_witness :
    fitsDHCP (collectRanges
        [some { Mac := "aa", StaticIp := "10.41.0.5", ReservationCidr := "",
                UciDhcpStart := "100", UciDhcpLimit := "150",
                RequestingReservation := false }]) (2 ^ (32 - 16) - 2) 150 250 ∧
      ((100 ≤ (250 : Int) ∧
        ∀ x, 100 ≤ x → x < 250 →
          ¬ fitsDHCP (collectRanges
              [some { Mac := "aa", StaticIp := "10.41.0.5", ReservationCidr := "",
                      UciDhcpStart := "100", UciDhcpLimit := "150",
                      RequestingReservation := false }]) (2 ^ (32 - 16) - 2) 150 x) ∨
       ((∀ x, 100 ≤ x →
          ¬ fitsDHCP (collectRanges
              [some { Mac := "aa", StaticIp := "10.41.0.5", ReservationCidr := "",
                      UciDhcpStart := "100", UciDhcpLimit := "150",
                      RequestingReservation := false }]) (2 ^ (32 - 16) - 2) 150 x) ∧
        1 ≤ (250 : Int) ∧
        ∀ x, 1 ≤ x → x < 250 →
          ¬ fitsDHCP (collectRanges
              [some { Mac := "aa", StaticIp := "10.41.0.5", ReservationCidr := "",
                      UciDhcpStart := "100", UciDhcpLimit := "150",
                      RequestingReservation := false }]) (2 ^ (32 - 16) - 2) 150 x)) :=
  CalculateAvailableDHCPStart_spec _ ⟨10, 41, 0, 0⟩ ⟨255, 255, 0, 0⟩ 150 16 250
    (by rfl) (by rfl)

/-! ## Claim C2: static-IP selection -/

theorem find?_split {α : Type} {p : α → Bool} :
    ∀ {l : List α} {a : α}, l.find? p = some a →
      p a = true ∧ ∃ l1 l2, l = l1 ++ a :: l2 ∧ ∀ x ∈ l1, p x = false := by
  intro l
  induction l with
  | nil => intro a h; cases h
  | cons y ys ih =>
    intro a h
    rw [List.find?_cons] at h
    split at h
    next hpy =>
      cases h
      exact ⟨hpy, [], ys, rfl, by intro x hx; cases hx⟩
    next hpy =>
      obtain ⟨hpa, l1, l2, heq, hall⟩ := ih h
      refine ⟨hpa, y :: l1, l2, by rw [heq]; rfl, ?_⟩
      intro x hx
      rcases List.mem_cons.mp hx with rfl | hx2
      · exact hpy
      · exact hall x hx2
theorem append_dotCons_inj {l1 r1 : List Char} :
    ∀ {l2 r2 : List Char}, ('.' ∉ l1) → ('.' ∉ r1) →
      l1 ++ '.' :: l2 = r1 ++ '.' :: r2 → l1 = r1 ∧ l2 = r2 := by
  induction l1 generalizing r1 with
  | nil =>
    intro l2 r2 h1 h2 heq
    cases r1 with
    | nil => simpa using heq
    | cons d ds =>
      simp only [List.nil_append, List.cons_append, List.cons.injEq] at heq
      exfalso
      apply h2
      rw [← heq.1]
      exact List.mem_cons_self _ _
  | cons c cs ih =>
    intro l2 r2 h1 h2 heq
    cases r1 with
    | nil =>
      simp only [List.cons_append, List.nil_append, List.cons.injEq] at heq
      exfalso
      apply h1
      rw [heq.1]
      exact List.mem_cons_self _ _
    | cons d ds =>
      simp only [List.cons_append, List.cons.injEq] at heq
      have hcd : c = d := heq.1
      have hrest := ih (fun hm => h1 (List.mem_cons_of_mem c hm))
        (fun hm => h2 (List.mem_cons_of_mem d hm)) heq.2
      exact ⟨by rw [hcd, hrest.1], hrest.2⟩
theorem range1_255_nodot_ne0 :
    ∀ t ∈ List.range' 1 255, '.' ∉ (toString t).data ∧ toString t ≠ "0" := by
  decide
theorem range1_254_facts :
    ∀ h ∈ List.range' 1 254,
      '.' ∉ (toString h).data ∧ toString h ≠ "0" ∧ toString h ≠ "255" := by
  decide
theorem gatewayCandidate_ne :
    ∀ x ∈ List.range' 1 254,
      ("10.41.0." ++ toString x) ≠ "10.41.0.0" ∧
      ("10.41.0." ++ toString x) ≠ "10.41.255.255" := by
  decide
theorem normalCandidate_ne (t h : Nat)
    (ht : '.' ∉ (toString t).data)
    (ht0 : toString t ≠ "0")
    (hh255 : toString h ≠ "255") :
    ("10.41." ++ toString t ++ "." ++ toString h) ≠ "10.41.0.0" ∧
    ("10.41." ++ toString t ++ "." ++ toString h) ≠ "10.41.255.255" := by
  constructor
  · intro heq
    have hd := congrArg String.data heq
    simp only [String.data_append] at hd
    have hd2 : (toString t).data ++ '.' :: (toString h).data =
        ['0'] ++ '.' :: ['0'] := by
      apply @List.append_cancel_left Char ("10.41.".data) _ _
      simpa [List.append_assoc] using hd
    have hsplit := append_dotCons_inj ht (by decide) hd2
    exact ht0 (String.ext hsplit.1)
  · intro heq
    have hd := congrArg String.data heq
    simp only [String.data_append] at hd
    have hd2 : (toString t).data ++ '.' :: (toString h).data =
        ['2', '5', '5'] ++ '.' :: ['2', '5', '5'] := by
      apply @List.append_cancel_left Char ("10.41.".data) _ _
      simpa [List.append_assoc] using hd
    have hsplit := append_dotCons_inj ht (by decide) hd2
    exact hh255 (String.ext hsplit.2.symm ▸ rfl)
/-- Claim C2: SelectAvailableStaticIP returns the first candidate of the
prescribed iteration order that is not reserved (gateway mode: 10.41.0.x
for x in [1,254]; otherwise 10.41.t.h for t in [1,255] minus 253 and 254
and h in [1,254]); it never returns a reserved IP, the network address
10.41.0.0, or the broadcast address 10.41.255.255; it errors exactly when
every candidate is reserved. -/
theorem SelectAvailableStaticIP_spec (records : List (Option AddressReservation))
    (gatewayMode : Bool) :
    (∀ ip, SelectAvailableStaticIP records gatewayMode = .ok ip →
      ((reservedIPsOf records).contains ip = false ∧
       (∃ l1 l2,
          (if gatewayMode then gatewayModeCandidates else normalModeCandidates) =
            l1 ++ ip :: l2 ∧
          ∀ prior ∈ l1, (reservedIPsOf records).contains prior = true) ∧
       ip ≠ "10.41.0.0" ∧ ip ≠ "10.41.255.255")) ∧
    ((∀ cand ∈ (if gatewayMode then gatewayModeCandidates else normalModeCandidates),
        (reservedIPsOf records).contains cand = true) →
      ∃ e, SelectAvailableStaticIP records gatewayMode = .error e) := by
  constructor
  · intro ip hok
    have hfind : (if gatewayMode then gatewayModeCandidates
        else normalModeCandidates).find?
        (fun candidateIP => !((reservedIPsOf records).contains candidateIP)) =
        some ip := by
      unfold SelectAvailableStaticIP at hok
      cases gatewayMode with
      | true =>
        simp only [if_true] at hok ⊢
        split at hok
        next c h => injection hok with h2; subst h2; exact h
        next h => cases hok
      | false =>
        simp only [if_false, Bool.false_eq_true] at hok ⊢
        split at hok
        next c h => injection hok with h2; subst h2; exact h
        next h => cases hok
    obtain ⟨hp, l1, l2, heq, hall⟩ := find?_split hfind
    have hnotres : (reservedIPsOf records).contains ip = false := by
      cases hc : (reservedIPsOf records).contains ip
      · rfl
      · rw [hc] at hp; cases hp
    have hmem : ip ∈ (if gatewayMode then gatewayModeCandidates
        else normalModeCandidates) := by
      rw [heq]
      exact List.mem_append.mpr (Or.inr (List.mem_cons_self _ _))
    refine ⟨hnotres, ⟨l1, l2, heq, ?_⟩, ?_⟩
    · intro prior hprior
      have := hall prior hprior
      cases hc : (reservedIPsOf records).contains prior
      · rw [hc] at this; cases this
      · rfl
    · cases gatewayMode with
      | true =>
        simp only [if_true] at hmem
        obtain ⟨x, hx, hxeq⟩ := List.mem_map.mp hmem
        exact hxeq ▸ gatewayCandidate_ne x hx
      | false =>
        simp only [if_false, Bool.false_eq_true] at hmem
        obtain ⟨t, ht, hmem2⟩ := List.mem_flatMap.mp hmem
        obtain ⟨h, hh, hheq⟩ := List.mem_map.mp hmem2
        have ht2 := (List.mem_filter.mp ht).1
        obtain ⟨htd, ht0⟩ := range1_255_nodot_ne0 t ht2
        obtain ⟨hhd, hh0, hh255⟩ := range1_254_facts h hh
        exact hheq ▸ normalCandidate_ne t h htd ht0 hh255
  · intro hallres
    cases gatewayMode with
    | true =>
      simp only [if_true] at hallres
      have hfind : gatewayModeCandidates.find?
          (fun candidateIP => !((reservedIPsOf records).contains candidateIP)) =
          none := by
        rw [List.find?_eq_none]
        intro cand hc
        simpa using hallres cand hc
      refine ⟨"no available IP addresses in 10.41.0.0/24 range", ?_⟩
      unfold SelectAvailableStaticIP
      simp only [if_true]
      rw [hfind]
    | false =>
      simp only [if_false, Bool.false_eq_true] at hallres
      have hfind : normalModeCandidates.find?
          (fun candidateIP => !((reservedIPsOf records).contains candidateIP)) =
          none := by
        rw [List.find?_eq_none]
        intro cand hc
        simpa using hallres cand hc
      refine ⟨"no available IP addresses in 10.41.0.0/16 range", ?_⟩
      unfold SelectAvailableStaticIP
      simp only [if_false, Bool.false_eq_true]
      rw [hfind]
/-- Sanity checks of the embedding on concrete inputs. -/
example : SelectAvailableStaticIP [] true = .ok "10.41.0.1" := by rfl
example : SelectAvailableStaticIP [some sampleReservedA] true = .ok "10.41.0.2" := by
  rfl
example : SelectAvailableStaticIP [] false = .ok "10.41.1.1" := by rfl
/-- Witness: the specification theorem applied at a concrete input. -/
theorem SelectAvailableStaticIP_spec_witness :
    (reservedIPsOf [some sampleReservedA]).contains "10.41.0.2" = false ∧
    (∃ l1 l2,
       (if true then gatewayModeCandidates else normalModeCandidates) =
         l1 ++ "10.41.0.2" :: l2 ∧
       ∀ prior ∈ l1,
         (reservedIPsOf [some sampleReservedA]).contains prior = true) ∧
    "10.41.0.2" ≠ "10.41.0.0" ∧ "10.41.0.2" ≠ "10.41.255.255" :=
  (SelectAvailableStaticIP_spec [some sampleReservedA] true).1
    "10.41.0.2" (by rfl)

/-! ## Claim C10: mesh-probe interface independence -/

/-- Claim C10: the mesh-probe results are independent of the interface argument:
for the same subprocess behaviour and the same JSON decoders, GetMeshConfig
and GetMeshGateways return identical results for any two interface names. -/
theorem meshProbe_iface_independent (a b : String)
    (execOutput : List String → Except String String)
    (unmarshalMeshConfig : String → Except String MeshConfig)
    (unmarshalGateways : String → Except String (List BatmanGateway)) :
    GetMeshConfig a execOutput unmarshalMeshConfig =
      GetMeshConfig b execOutput unmarshalMeshConfig ∧
    GetMeshGateways a execOutput unmarshalGateways =
      GetMeshGateways b execOutput unmarshalGateways :=
  ⟨rfl, rfl⟩

/-! ## Claim C9: PTT idempotence -/

theorem monitorPTTStep_press_broadcasting (pttKey : String) (s : PTTState)
    (ev : InputEvent) (startOk : Bool) (hb : s.broadcasting = true)
    (hv : ev.Value = 1) :
    monitorPTTStep pttKey s ev startOk = s := by
  unfold monitorPTTStep beginTransmission
  rw [hv, hb]
  split
  · rfl
  · split
    · simp
    · rfl
theorem monitorPTTStep_release_idle (pttKey : String) (s : PTTState)
    (ev : InputEvent) (startOk : Bool) (hb : s.broadcasting = false)
    (hv : ev.Value = 0) :
    monitorPTTStep pttKey s ev startOk = s := by
  unfold monitorPTTStep
  rw [hv, hb]
  split
  · rfl
  · split
    · rfl
    · simp
theorem monitorPTTStep_press_result (pttKey : String) (s : PTTState)
    (ev : InputEvent) (ht : ev.EvType = EV_KEY)
    (hk : keyMatches pttKey ev.Code = true) (hv : ev.Value = 1)
    (hb : s.broadcasting = false) :
    (monitorPTTStep pttKey s ev true).broadcasting = true ∧
    (monitorPTTStep pttKey s ev true).micStartCalls = s.micStartCalls + 1 := by
  unfold monitorPTTStep beginTransmission
  rw [ht, hv, hk, hb]
  simp
theorem monitorPTTStep_release_result (pttKey : String) (s : PTTState)
    (ev : InputEvent) (startOk : Bool) (ht : ev.EvType = EV_KEY)
    (hk : keyMatches pttKey ev.Code = true) (hv : ev.Value = 0)
    (hb : s.broadcasting = true) :
    (monitorPTTStep pttKey s ev startOk).broadcasting = false ∧
    (monitorPTTStep pttKey s ev startOk).micStopCalls = s.micStopCalls + 1 := by
  unfold monitorPTTStep endTransmission
  rw [ht, hv, hk, hb]
  simp
theorem runPTTEvents_press_broadcasting (pttKey : String) (ev : InputEvent)
    (hv : ev.Value = 1) :
    ∀ (n : Nat) (s : PTTState), s.broadcasting = true →
      runPTTEvents pttKey s (List.replicate n (ev, true)) = s := by
  intro n
  induction n with
  | zero => intro s _; rfl
  | succ n ih =>
    intro s hb
    show runPTTEvents pttKey (monitorPTTStep pttKey s ev true)
      (List.replicate n (ev, true)) = s
    rw [monitorPTTStep_press_broadcasting pttKey s ev true hb hv]
    exact ih s hb
theorem runPTTEvents_release_idle (pttKey : String) (ev : InputEvent)
    (hv : ev.Value = 0) :
    ∀ (n : Nat) (s : PTTState), s.broadcasting = false →
      runPTTEvents pttKey s (List.replicate n (ev, true)) = s := by
  intro n
  induction n with
  | zero => intro s _; rfl
  | succ n ih =>
    intro s hb
    show runPTTEvents pttKey (monitorPTTStep pttKey s ev true)
      (List.replicate n (ev, true)) = s
    rw [monitorPTTStep_release_idle pttKey s ev true hb hv]
    exact ih s hb
/-- Claim C9: PTT press and release are idempotent on the broadcasting state.  A
second press without an intervening release is ignored, a second release
while idle is ignored, and a run of n+1 consecutive matching presses from
an idle state calls bcastStream.Start exactly once (with the call
succeeding), while a run of n+1 consecutive matching releases from a
transmitting state calls bcastStream.Stop exactly once. -/
theorem ptt_press_release_idempotent (pttKey : String) (ev : InputEvent)
    (s : PTTState) :
    (ev.Value = 1 →
      monitorPTTStep pttKey (monitorPTTStep pttKey s ev true) ev true =
        monitorPTTStep pttKey s ev true) ∧
    (∀ ok1 ok2 : Bool, ev.Value = 0 →
      monitorPTTStep pttKey (monitorPTTStep pttKey s ev ok1) ev ok2 =
        monitorPTTStep pttKey s ev ok1) ∧
    (∀ n : Nat, ev.EvType = EV_KEY → keyMatches pttKey ev.Code = true →
      ev.Value = 1 → s.broadcasting = false →
      (runPTTEvents pttKey s (List.replicate (n + 1) (ev, true))).micStartCalls =
        s.micStartCalls + 1) ∧
    (∀ n : Nat, ev.EvType = EV_KEY → keyMatches pttKey ev.Code = true →
      ev.Value = 0 → s.broadcasting = true →
      (runPTTEvents pttKey s (List.replicate (n + 1) (ev, true))).micStopCalls =
        s.micStopCalls + 1) := by
  refine ⟨?_, ?_, ?_, ?_⟩
  · intro hv
    by_cases ht : ev.EvType = EV_KEY
    · by_cases hk : keyMatches pttKey ev.Code = true
      · by_cases hb : s.broadcasting = true
        · rw [monitorPTTStep_press_broadcasting pttKey s ev true hb hv,
            monitorPTTStep_press_broadcasting pttKey s ev true hb hv]
        · have hb2 : s.broadcasting = false := by
            cases h : s.broadcasting
            · rfl
            · exact absurd h hb
          exact monitorPTTStep_press_broadcasting pttKey _ ev true
            (monitorPTTStep_press_result pttKey s ev ht hk hv hb2).1 hv
    -- non-matching or non-key events leave the state unchanged
      · have hid : monitorPTTStep pttKey s ev true = s := by
          unfold monitorPTTStep
          split
          · rfl
          · rw [Bool.not_eq_true] at hk
            simp [hk]
        rw [hid, hid]
    · have hid : monitorPTTStep pttKey s ev true = s := by
        unfold monitorPTTStep
        split
        · rfl
        · next hcond => exact absurd (by simpa using hcond) ht
      rw [hid, hid]
  · intro ok1 ok2 hv
    by_cases hb2 : (monitorPTTStep pttKey s ev ok1).broadcasting = true
    · by_cases ht : ev.EvType = EV_KEY
      · by_cases hk : keyMatches pttKey ev.Code = true
        · by_cases hb : s.broadcasting = true
          · exfalso
            have := (monitorPTTStep_release_result pttKey s ev ok1 ht hk hv hb).1
            rw [this] at hb2
            cases hb2
          · have hbf : s.broadcasting = false := by
              cases h : s.broadcasting
              · rfl
              · exact absurd h hb
            rw [monitorPTTStep_release_idle pttKey s ev ok1 hbf hv,
              monitorPTTStep_release_idle pttKey s ev ok2 hbf hv]
        · have hid : ∀ ok : Bool, monitorPTTStep pttKey s ev ok = s := by
            intro ok
            unfold monitorPTTStep
            split
            · rfl
            · rw [Bool.not_eq_true] at hk
              simp [hk]
          rw [hid ok1] at hb2 ⊢
          rw [hid ok2]
      · have hid : ∀ ok : Bool, monitorPTTStep pttKey s ev ok = s := by
          intro ok
          unfold monitorPTTStep
          split
          · rfl
          · next hcond => exact absurd (by simpa using hcond) ht
        rw [hid ok1, hid ok2]
    · have hbf : (monitorPTTStep pttKey s ev ok1).broadcasting = false := by
        cases h : (monitorPTTStep pttKey s ev ok1).broadcasting
        · rfl
        · exact absurd h hb2
      exact monitorPTTStep_release_idle pttKey _ ev ok2 hbf hv
  · intro n ht hk hv hb
    obtain ⟨hb1, hc1⟩ := monitorPTTStep_press_result pttKey s ev ht hk hv hb
    show (runPTTEvents pttKey (monitorPTTStep pttKey s ev true)
        (List.replicate n (ev, true))).micStartCalls = s.micStartCalls + 1
    rw [runPTTEvents_press_broadcasting pttKey ev hv n _ hb1, hc1]
  · intro n ht hk hv hb
    obtain ⟨hb1, hc1⟩ := monitorPTTStep_release_result pttKey s ev true ht hk hv hb
    show (runPTTEvents pttKey (monitorPTTStep pttKey s ev true)
        (List.replicate n (ev, true))).micStopCalls = s.micStopCalls + 1
    rw [runPTTEvents_release_idle pttKey ev hv n _ hb1, hc1]
/-- Witness: the idempotence theorem applied at a concrete press event. -/
theorem ptt_press_release_idempotent_witness :
    (((1 : Int) = 1 →
      monitorPTTStep "any"
          (monitorPTTStep "any"
            { broadcasting := false, playbackBuffer := [],
              micStartCalls := 0, micStopCalls := 0 }
            { EvType := 1, Code := 2, Value := 1 } true)
          { EvType := 1, Code := 2, Value := 1 } true =
        monitorPTTStep "any"
          { broadcasting := false, playbackBuffer := [],
            micStartCalls := 0, micStopCalls := 0 }
          { EvType := 1, Code := 2, Value := 1 } true)) ∧
    (runPTTEvents "any"
        { broadcasting := false, playbackBuffer := [],
          micStartCalls := 0, micStopCalls := 0 }
        (List.replicate 3 ({ EvType := 1, Code := 2, Value := 1 }, true))).micStartCalls =
      0 + 1 :=
  ⟨(ptt_press_release_idempotent "any" { EvType := 1, Code := 2, Value := 1 }
      { broadcasting := false, playbackBuffer := [],
        micStartCalls := 0, micStopCalls := 0 }).1,
   (ptt_press_release_idempotent "any" { EvType := 1, Code := 2, Value := 1 }
      { broadcasting := false, playbackBuffer := [],
        micStartCalls := 0, micStopCalls := 0 }).2.2.1 2 (by rfl) (by rfl)
      (by rfl) (by rfl)⟩

/-! ## Claim C6: default-route replacement -/

/-- Counterexample to C6 as stated: when no default route exists,
ReplaceDefaultRoute does not install one; it returns the propagated
no-default-route error and leaves the kernel state unchanged. -/
theorem ReplaceDefaultRoute_no_route_counterexample :
    ReplaceDefaultRoute (.v4 10 41 0 5)
        { defaultRoute := none, routeListOk := true, linkOk := true,
          replaceOk := true } =
      (.error "failed to get current default route: no default route found",
       { defaultRoute := none, routeListOk := true, linkOk := true,
         replaceOk := true }) := by
  rfl
/-- Claim C6 as amended: when a default route exists and the netlink calls
succeed, ReplaceDefaultRoute atomically replaces it in a single
RouteReplace, preserving the existing interface and metric; when no
default route exists it returns an error instead of installing one; and
any error leaves the kernel state unchanged. -/
theorem ReplaceDefaultRoute_spec (newGateway : IPAddr) :
    (∀ k r, k.defaultRoute = some r → k.routeListOk = true →
      k.linkOk = true → k.replaceOk = true →
      ReplaceDefaultRoute newGateway k =
        (.ok (), { k with
          defaultRoute := some { Gateway := newGateway,
                                 Interface := r.Interface,
                                 Metric := r.Metric } })) ∧
    (∀ k, k.defaultRoute = none → k.routeListOk = true →
      ∃ e, ReplaceDefaultRoute newGateway k = (.error e, k)) ∧
    (∀ k e, (ReplaceDefaultRoute newGateway k).1 = .error e →
      (ReplaceDefaultRoute newGateway k).2 = k) := by
  refine ⟨?_, ?_, ?_⟩
  · intro k r hr hlist hlink hrep
    unfold ReplaceDefaultRoute GetDefaultRoute
    rw [hr, hlist, hlink, hrep]
    rfl
  · intro k hr hlist
    unfold ReplaceDefaultRoute GetDefaultRoute
    rw [hr, hlist]
    exact ⟨_, rfl⟩
  · intro k e herr
    unfold ReplaceDefaultRoute at herr ⊢
    cases hg : GetDefaultRoute k with
    | error e2 => rfl
    | ok cur =>
      by_cases hl : k.linkOk = true
      · by_cases hrep2 : k.replaceOk = true
        · simp [hg, hl, hrep2] at herr
        · rw [Bool.not_eq_true] at hrep2
          simp [hl, hrep2]
      · rw [Bool.not_eq_true] at hl
        simp [hl]
/-- Witness: the amended C6 theorem applied at a concrete kernel state. -/
theorem ReplaceDefaultRoute_spec_witness :
    ReplaceDefaultRoute (.v4 10 41 0 6)
        { defaultRoute := some { Gateway := .v4 10 41 0 5,
                                 Interface := "br-ahwlan", Metric := 100 },
          routeListOk := true, linkOk := true, replaceOk := true } =
      (.ok (), { defaultRoute := some { Gateway := .v4 10 41 0 6,
                                        Interface := "br-ahwlan",
                                        Metric := 100 },
                 routeListOk := true, linkOk := true, replaceOk := true }) :=
  (ReplaceDefaultRoute_spec (.v4 10 41 0 6)).1
    { defaultRoute := some { Gateway := .v4 10 41 0 5,
                             Interface := "br-ahwlan", Metric := 100 },
      routeListOk := true, linkOk := true, replaceOk := true }
    { Gateway := .v4 10 41 0 5, Interface := "br-ahwlan", Metric := 100 }
    rfl rfl rfl rfl

/-! ## Claim C7: gateway send tick -/

/-- Counterexample to C7 as stated: with gw_mode server and a loopback
first address 127.0.0.1, the send tick publishes a record (the code only
checks To4, not IsLoopback or IsUnspecified), while the claim says nothing
is published for a loopback address. -/
theorem gatewaySendTick_loopback_counterexample :
    gatewaySendTick
        { meshCfg := .ok { GwMode := "server",
                           HardAddress := "aa:bb:cc:dd:ee:ff" },
          iface := { Name := "br-ahwlan", MAC := "11:22",
                     IP := [{ IP := some (.v4 127 0 0 1), Netmask := none }] },
          hostname := .ok "gw1" } =
      some { Mac := "aa:bb:cc:dd:ee:ff", Ipaddr := "127.0.0.1",
             Hostname := "gw1" } ∧
    IPAddr.IsLoopback (.v4 127 0 0 1) = true :=
  ⟨rfl, rfl⟩
/-- Claim C7 as amended: the gateway send tick publishes a record iff the mesh
probe succeeded with gw_mode = server and the first address of the bridge
interface is a non-nil address accepted by To4 (loopback and unspecified
addresses are not excluded); the record then carries mac = the mesh hard
address, ipaddr = the string form of that first address, and the hostname
(or "unknown" when the lookup failed). -/
theorem gatewaySendTick_spec (env : GatewaySendEnv) :
    (∀ r, gatewaySendTick env = some r →
      ∃ cfg first rest ip0 q,
        env.meshCfg = .ok cfg ∧ cfg.IsGatewayMode = true ∧
        env.iface.IP = first :: rest ∧ first.IP = some ip0 ∧
        ip0.To4 = some q ∧
        r = { Mac := cfg.HardAddress, Ipaddr := ipString first.IP,
              Hostname := hostnameOr env.hostname }) ∧
    (∀ cfg first rest ip0 q,
      env.meshCfg = .ok cfg → cfg.IsGatewayMode = true →
      env.iface.IP = first :: rest → first.IP = some ip0 →
      ip0.To4 = some q →
      gatewaySendTick env =
        some { Mac := cfg.HardAddress, Ipaddr := ipString first.IP,
               Hostname := hostnameOr env.hostname }) := by
  constructor
  · intro r h
    unfold gatewaySendTick at h
    split at h
    · cases h
    next cfg heq =>
      split at h
      · split at h
        · cases h
        next first rest hiface =>
          split at h
          · cases h
          next ip0 hip =>
            split at h
            · cases h
            next q hq =>
              injection h with h2
              exact ⟨cfg, first, rest, ip0, q, heq, by assumption, hiface,
                hip, hq, h2.symm⟩
      · cases h
  · intro cfg first rest ip0 q hm hmode hiface hip hq
    unfold gatewaySendTick
    rw [hm]
    simp [hmode, hiface, hip, hq]
/-- Witness: the amended C7 theorem applied at a concrete environment. -/
theorem gatewaySendTick_spec_witness :
    gatewaySendTick
        { meshCfg := .ok { GwMode := "server", HardAddress := "aa:bb" },
          iface := { Name := "br-ahwlan", MAC := "11:22",
                     IP := [{ IP := some (.v4 10 41 0 10),
                              Netmask := some (.v4 255 255 0 0) }] },
          hostname := .ok "gw1" } =
      some { Mac := "aa:bb", Ipaddr := ipString (some (.v4 10 41 0 10)),
             Hostname := "gw1" } :=
  (gatewaySendTick_spec _).2 { GwMode := "server", HardAddress := "aa:bb" }
    { IP := some (.v4 10 41 0 10), Netmask := some (.v4 255 255 0 0) } []
    (.v4 10 41 0 10) (.v4 10 41 0 10) rfl rfl rfl rfl rfl

/-! ## Claim C5: gateway receive tick -/

/-- Counterexample to C5 as stated: batman-adv reports exactly one gateway
with originator MAC M, and the record set contains exactly one record with
mac = M, but the single entry is not flagged best; GetBest returns none and
the tick dereferences it, a Go nil-pointer panic.  No default route is
installed. -/
theorem gatewayReceiveTick_notbest_counterexample :
    gatewayReceiveTick
        { meshCfg := .ok { GwMode := "client", HardAddress := "mm" },
          records := .ok [some { Mac := "02:ba:de:af:fe:01",
                                 Ipaddr := "10.41.0.5", Hostname := "gw1" }],
          batGwys := .ok [{ HardIfname := "wlan0",
                            OrigAddress := "02:ba:de:af:fe:01",
                            Best := false, Throughput := 10,
                            Router := "02:ba:de:af:fe:01" }],
          parseIP := fun _ => none,
          ifaceName := "br-ahwlan" }
        { defaultRoute := none, routeListOk := true, linkOk := true,
          replaceOk := true } =
      .panicked { defaultRoute := none, routeListOk := true, linkOk := true,
                  replaceOk := true } := by
  rfl
theorem processGatewayRecord_skip (env : GatewayReceiveEnv)
    (batGw : BatmanGateway) (k : KernelState) (rec : Option GatewayRecord)
    (h : recMatches batGw.OrigAddress rec = false) :
    processGatewayRecord env batGw k rec = k := by
  cases rec with
  | none => rfl
  | some g =>
    simp only [recMatches] at h
    simp [processGatewayRecord, h]
theorem foldl_processGatewayRecord_skip (env : GatewayReceiveEnv)
    (batGw : BatmanGateway) :
    ∀ (l : List (Option GatewayRecord)),
      (∀ r ∈ l, recMatches batGw.OrigAddress r = false) →
      ∀ k, l.foldl (processGatewayRecord env batGw) k = k := by
  intro l
  induction l with
  | nil => intro _ k; rfl
  | cons r rest ih =>
    intro h k
    show rest.foldl (processGatewayRecord env batGw)
      (processGatewayRecord env batGw k r) = k
    rw [processGatewayRecord_skip env batGw k r (h r (List.mem_cons_self _ _))]
    exact ih (fun x hx => h x (List.mem_cons_of_mem _ hx)) k
/-- Claim C5 as amended: in client mode, when batman-adv reports exactly one
gateway and that gateway is flagged best with originator MAC M, the Alfred
set contains exactly one record with mac = M, that record advertises an
address that parses, a default route exists, and the netlink calls
succeed, then after one receive tick the default route points at the
advertised address. -/
theorem gatewayReceiveTick_spec (env : GatewayReceiveEnv) (k : KernelState)
    (cfg : MeshConfig) (B : BatmanGateway) (g : GatewayRecord)
    (pre post : List (Option GatewayRecord)) (ip : IPAddr) (cur : Route)
    (hm : env.meshCfg = .ok cfg) (hmode : cfg.IsGatewayMode = false)
    (hb : env.batGwys = .ok [B]) (hbest : B.Best = true)
    (hr : env.records = .ok (pre ++ some g :: post))
    (hpre : ∀ r ∈ pre, recMatches B.OrigAddress r = false)
    (hpost : ∀ r ∈ post, recMatches B.OrigAddress r = false)
    (hg : g.Mac = B.OrigAddress)
    (hip : env.parseIP g.Ipaddr = some ip)
    (hlist : k.routeListOk = true) (hcur : k.defaultRoute = some cur)
    (hrep : k.replaceOk = true) :
    ∃ k1 r1, gatewayReceiveTick env k = .ok k1 ∧
      k1.defaultRoute = some r1 ∧ r1.Gateway = ip := by
  unfold gatewayReceiveTick
  rw [hm, hr, hb]
  simp only [hmode, Bool.false_eq_true, if_false]
  have hbestB : Gateways.GetBest [B] = some B := by
    unfold Gateways.GetBest
    simp [List.find?_cons, hbest]
  simp only [List.length_cons, List.length_nil]
  rw [hbestB]
  simp only [Nat.reduceBEq]
  rw [List.foldl_append]
  rw [foldl_processGatewayRecord_skip env B pre hpre k]
  show ∃ k1 r1,
    GoOutcome.ok (post.foldl (processGatewayRecord env B)
      (processGatewayRecord env B k (some g))) = .ok k1 ∧
    k1.defaultRoute = some r1 ∧ r1.Gateway = ip
  have hstep : ∃ r1, (processGatewayRecord env B k (some g)).defaultRoute =
      some r1 ∧ r1.Gateway = ip ∧
      (processGatewayRecord env B k (some g)).routeListOk = true ∧
      (processGatewayRecord env B k (some g)).replaceOk = true := by
    have hgb : (g.Mac == B.OrigAddress) = true := by
      rw [hg]
      simp
    unfold processGatewayRecord
    simp only [hgb, if_true]
    unfold GetDefaultRoute
    rw [hlist, hcur, hip]
    simp only [Bool.not_true, Bool.false_eq_true, if_false]
    by_cases hcg : (cur.Gateway == ip) = true
    · rw [hcg]
      simp only [if_true]
      exact ⟨cur, hcur, by simpa using hcg, hlist, hrep⟩
    · rw [Bool.not_eq_true] at hcg
      rw [hcg]
      simp only [Bool.false_eq_true, if_false]
      unfold ReplaceDefaultRouteDev
      rw [hrep, hcur]
      simp only [Bool.not_true, Bool.false_eq_true, if_false]
      exact ⟨_, rfl, rfl, hlist, trivial⟩
  obtain ⟨r1, hr1, hgw, _, _⟩ := hstep
  refine ⟨_, r1, rfl, ?_, hgw⟩
  rw [foldl_processGatewayRecord_skip env B post hpost _]
  exact hr1
/-- Witness: the amended C5 theorem applied at a concrete environment. -/
theorem gatewayReceiveTick_spec_witness :
    ∃ k1 r1,
      gatewayReceiveTick
          { meshCfg := .ok { GwMode := "client", HardAddress := "mm" },
            records := .ok [some { Mac := "02:01", Ipaddr := "10.41.0.5",
                                   Hostname := "gw1" }],
            batGwys := .ok [{ HardIfname := "wlan0", OrigAddress := "02:01",
                              Best := true, Throughput := 10,
                              Router := "02:01" }],
            parseIP := fun s =>
              if s == "10.41.0.5" then some (.v4 10 41 0 5) else none,
            ifaceName := "br-ahwlan" }
          { defaultRoute := some { Gateway := .v4 10 41 0 1,
                                   Interface := "br-ahwlan", Metric := 100 },
            routeListOk := true, linkOk := true, replaceOk := true } =
        .ok k1 ∧
      k1.defaultRoute = some r1 ∧ r1.Gateway = .v4 10 41 0 5 :=
  gatewayReceiveTick_spec _ _
    { GwMode := "client", HardAddress := "mm" }
    { HardIfname := "wlan0", OrigAddress := "02:01", Best := true,
      Throughput := 10, Router := "02:01" }
    { Mac := "02:01", Ipaddr := "10.41.0.5", Hostname := "gw1" }
    [] [] (.v4 10 41 0 5)
    { Gateway := .v4 10 41 0 1, Interface := "br-ahwlan", Metric := 100 }
    rfl rfl rfl rfl rfl
    (by intro r hr; cases hr) (by intro r hr; cases hr)
    rfl rfl rfl rfl rfl

/-! ## Claim C3: the UNCONFIGURED to CONFIGURED transition -/

theorem setNetwork_preserves_flag (sectionName : String) (cfg : UCINetwork)
    (ok : Bool) (uci : UciState) :
    ((SetNetworkConfigWithReader sectionName cfg ok uci).2).dhcpConfigured =
      uci.dhcpConfigured := by
  unfold SetNetworkConfigWithReader
  split
  · rfl
  · rfl
theorem setDhcp_preserves_flag (sectionName : String) (cfg : UCIDHCP)
    (ok : Bool) (uci : UciState) :
    ((SetDHCPConfigWithReader sectionName cfg ok uci).2).dhcpConfigured =
      uci.dhcpConfigured := by
  unfold SetDHCPConfigWithReader
  split
  · rfl
  · rfl
/-- Counterexample to C3 as stated: with the network-section write
succeeding and the DHCP-section write failing, the tick ends with the node
still unconfigured but with the network section already committed: the
persistent UCI state has changed.  The transition is not atomic. -/
theorem addressReservationReceiveTick_partial_commit_counterexample :
    addressReservationReceiveTick partialCommitEnv uciEmpty0 =
      .ok { uci := uciAfterNetWrite, published := [],
            attemptedSelection := true, steps := [.netWrite] } ∧
    uciAfterNetWrite ≠ uciEmpty0 ∧
    uciAfterNetWrite.dhcpConfigured = uciEmpty0.dhcpConfigured := by
  refine ⟨?_, ?_, rfl⟩
  · rfl
  · decide
/-- Claim C3 as amended: the receive tick performs the transition steps (write
network section, write DHCP section, reload network, write
dhcp_configured = 1) in that order; a failure at any step ends the tick at
once, so the completed steps are always a prefix of that order; the
dhcp_configured flag is written exactly when all four steps complete, and
on any earlier stop the flag keeps its previous value, so the node remains
UNCONFIGURED — but steps committed before the failure are not rolled
back. -/
theorem addressReservationReceiveTick_transition_spec (env : ARWReceiveEnv)
    (uci : UciState) (out : ARWRecvOut)
    (h : (addressReservationReceiveTick env uci).val = out) :
    (out.steps = [] ∨ out.steps = [.netWrite] ∨
     out.steps = [.netWrite, .dhcpWrite] ∨
     out.steps = [.netWrite, .dhcpWrite, .reload] ∨
     out.steps = [.netWrite, .dhcpWrite, .reload, .markConfigured]) ∧
    (out.steps = [.netWrite, .dhcpWrite, .reload, .markConfigured] →
      out.uci.dhcpConfigured = "1") ∧
    (out.steps ≠ [.netWrite, .dhcpWrite, .reload, .markConfigured] →
      out.uci.dhcpConfigured = uci.dhcpConfigured) := by
  unfold addressReservationReceiveTick at h
  cases hrec : env.records with
  | error e =>
    simp only [hrec] at h
    simp only [GoOutcome.val] at h
    subst h
    exact ⟨Or.inl rfl, fun hh => by simp at hh, fun _ => rfl⟩
  | ok records =>
    simp only [hrec] at h
    cases hconf : IsDHCPConfiguredWithReader uci with
    | error e =>
      simp only [hconf] at h
      simp only [GoOutcome.val] at h
      subst h
      exact ⟨Or.inl rfl, fun hh => by simp at hh, fun _ => rfl⟩
    | ok configured =>
      simp only [hconf] at h
      cases configured with
      | true =>
        simp only [if_true] at h
        cases hresp : respondLoop env.ifaceName env.iface env.dhcpReloadOk
            uci [] records with
        | ok pubs =>
          simp only [hresp] at h
          simp only [GoOutcome.val] at h
          subst h
          exact ⟨Or.inl rfl, fun hh => by simp at hh, fun _ => rfl⟩
        | panicked pubs =>
          simp only [hresp] at h
          simp only [GoOutcome.val] at h
          subst h
          exact ⟨Or.inl rfl, fun hh => by simp at hh, fun _ => rfl⟩
      | false =>
        simp only [Bool.false_eq_true, if_false] at h
        cases hmesh : env.meshCfg with
        | error e =>
          simp only [hmesh] at h
          simp only [GoOutcome.val] at h
          subst h
          exact ⟨Or.inl rfl, fun hh => by simp at hh, fun _ => rfl⟩
        | ok meshCfg =>
          simp only [hmesh] at h
          cases hsel : SelectAvailableStaticIP records meshCfg.IsGatewayMode with
          | error e =>
            simp only [hsel] at h
            simp only [GoOutcome.val] at h
            subst h
            exact ⟨Or.inl rfl, fun hh => by simp at hh, fun _ => rfl⟩
          | ok staticIP =>
            simp only [hsel] at h
            rcases hsn : SetNetworkConfigWithReader
                (normalizeIfaceName env.ifaceName)
                { Proto := "static", IPAddr := staticIP,
                  NetMask := "255.255.0.0", IPV6Class := "local",
                  IPV6IfaceID := "eui64", IPV6Assignment := "64",
                  Device := env.ifaceName, DNS := "1.1.1.1", Gateway := "" }
                env.setNetworkOk uci with ⟨res1, uci1⟩
            have huci1 : uci1.dhcpConfigured = uci.dhcpConfigured := by
              have := setNetwork_preserves_flag
                (normalizeIfaceName env.ifaceName)
                { Proto := "static", IPAddr := staticIP,
                  NetMask := "255.255.0.0", IPV6Class := "local",
                  IPV6IfaceID := "eui64", IPV6Assignment := "64",
                  Device := env.ifaceName, DNS := "1.1.1.1", Gateway := "" }
                env.setNetworkOk uci
              rw [hsn] at this
              exact this
            simp only [hsn] at h
            cases res1 with
            | error e =>
              simp only [GoOutcome.val] at h
              subst h
              exact ⟨Or.inl rfl, fun hh => by simp at hh,
                fun _ => huci1⟩
            | ok u =>
              cases hcalc : CalculateAvailableDHCPStart records
                  DefaultNetworkAddressParsed DefaultNetworkMaskParsed
                  env.desiredLimit with
              | error e =>
                simp only [hcalc] at h
                simp only [GoOutcome.val] at h
                subst h
                exact ⟨Or.inr (Or.inl rfl), fun hh => by simp at hh,
                  fun _ => huci1⟩
              | ok dhcpStart =>
                simp only [hcalc] at h
                rcases hsd : SetDHCPConfigWithReader
                    (normalizeIfaceName env.ifaceName)
                    { Interface := normalizeIfaceName env.ifaceName,
                      Start := itoa dhcpStart,
                      Limit := itoa env.desiredLimit, LeaseTime := "12h",
                      Ignore := "", DHCPOption := "", Ra := "",
                      RaDefault := "", Force := "1" }
                    env.setDhcpOk uci1 with ⟨res2, uci2⟩
                have huci2 : uci2.dhcpConfigured = uci.dhcpConfigured := by
                  have := setDhcp_preserves_flag
                    (normalizeIfaceName env.ifaceName)
                    { Interface := normalizeIfaceName env.ifaceName,
                      Start := itoa dhcpStart,
                      Limit := itoa env.desiredLimit, LeaseTime := "12h",
                      Ignore := "", DHCPOption := "", Ra := "",
                      RaDefault := "", Force := "1" }
                    env.setDhcpOk uci1
                  rw [hsd] at this
                  rw [this, huci1]
                simp only [hsd] at h
                cases res2 with
                | error e =>
                  simp only [GoOutcome.val] at h
                  subst h
                  exact ⟨Or.inr (Or.inl rfl), fun hh => by simp at hh,
                    fun _ => huci2⟩
                | ok u2 =>
                  cases hreload : env.reloadNetworkOk with
                  | false =>
                    simp only [hreload] at h
                    simp only [Bool.not_false, if_true, GoOutcome.val] at h
                    subst h
                    exact ⟨Or.inr (Or.inr (Or.inl rfl)),
                      fun hh => by simp at hh, fun _ => huci2⟩
                  | true =>
                    simp only [hreload] at h
                    simp only [Bool.not_true, Bool.false_eq_true, if_false,
                      GoOutcome.val] at h
                    cases hsc : env.setConfiguredOk with
                    | false =>
                      simp only [hsc] at h
                      simp only [SetDHCPConfiguredWithReader, Bool.not_false,
                        if_true, GoOutcome.val] at h
                      subst h
                      exact ⟨Or.inr (Or.inr (Or.inr (Or.inl rfl))),
                        fun hh => by simp at hh, fun _ => huci2⟩
                    | true =>
                      simp only [hsc] at h
                      simp only [SetDHCPConfiguredWithReader, Bool.not_true,
                        Bool.false_eq_true, if_false, GoOutcome.val] at h
                      subst h
                      exact ⟨Or.inr (Or.inr (Or.inr (Or.inr rfl))),
                        fun _ => rfl, fun hh => absurd rfl hh⟩
/-- Witness: the amended C3 theorem applied at the concrete
partial-commit input. -/
theorem addressReservationReceiveTick_transition_spec_witness :
    (([.netWrite] : List ARStep) = [] ∨
     ([.netWrite] : List ARStep) = [.netWrite] ∨
     ([.netWrite] : List ARStep) = [.netWrite, .dhcpWrite] ∨
     ([.netWrite] : List ARStep) = [.netWrite, .dhcpWrite, .reload] ∨
     ([.netWrite] : List ARStep) =
       [.netWrite, .dhcpWrite, .reload, .markConfigured]) ∧
    (([.netWrite] : List ARStep) =
       [.netWrite, .dhcpWrite, .reload, .markConfigured] →
      uciAfterNetWrite.dhcpConfigured = "1") ∧
    (([.netWrite] : List ARStep) ≠
       [.netWrite, .dhcpWrite, .reload, .markConfigured] →
      uciAfterNetWrite.dhcpConfigured = uciEmpty0.dhcpConfigured) := by
  have := addressReservationReceiveTick_transition_spec partialCommitEnv
    uciEmpty0
    { uci := uciAfterNetWrite, published := [], attemptedSelection := true,
      steps := [.netWrite] } (by rfl)
  simpa using this

/-! ## Claim C4: configured nodes only respond -/

theorem createAddressReservationResponse_fields (ifaceName : String)
    (iface : NetworkInterface) (reloadOk : Bool) (uci : UciState)
    (resp : AddressReservation)
    (hresp : createAddressReservationResponse ifaceName iface reloadOk uci =
      .ok resp) :
    resp.RequestingReservation = false ∧ resp.Mac = iface.MAC ∧
    (∃ first rest, iface.IP = first :: rest ∧
      resp.StaticIp = ipString first.IP) ∧
    (∃ dhcp, GetDHCPConfigWithReader (normalizeIfaceName ifaceName)
        reloadOk uci = .ok dhcp ∧
      resp.UciDhcpStart = dhcp.Start ∧ resp.UciDhcpLimit = dhcp.Limit) := by
  unfold createAddressReservationResponse at hresp
  cases hd : GetDHCPConfigWithReader (normalizeIfaceName ifaceName)
      reloadOk uci with
  | error e =>
    simp only [hd] at hresp
    cases hresp
  | ok dhcp =>
    simp only [hd] at hresp
    cases hif : iface.IP with
    | nil =>
      simp only [hif] at hresp
      cases hresp
    | cons first rest =>
      simp only [hif] at hresp
      cases hip : first.IP with
      | none =>
        simp only [hip] at hresp
        cases hresp
      | some ip =>
        simp only [hip] at hresp
        by_cases hvalid :
            (ip.IsUnspecified || ip.IsLoopback || (ip.To4 == none)) = true
        · simp only [hvalid] at hresp
          simp only [if_true] at hresp
          cases hresp
        · have hvalid0 :
              (ip.IsUnspecified || ip.IsLoopback || (ip.To4 == none)) =
                false := by
            cases hq : (ip.IsUnspecified || ip.IsLoopback || (ip.To4 == none))
            · rfl
            · exact absurd hq hvalid
          simp only [hvalid0] at hresp
          simp only [Bool.false_eq_true, if_false] at hresp
          cases hcidr : GetCIDR iface with
          | nil =>
            simp only [hcidr] at hresp
            cases hresp
          | cons cidr0 ctail =>
            simp only [hcidr] at hresp
            injection hresp with h2
            subst h2
            exact ⟨rfl, rfl, ⟨first, rest, rfl, by rw [hip]⟩,
              ⟨dhcp, rfl, rfl, rfl⟩⟩

theorem respondLoop_ok (ifaceName : String) (iface : NetworkInterface)
    (reloadOk : Bool) (uci : UciState) (resp : AddressReservation)
    (hresp : createAddressReservationResponse ifaceName iface reloadOk uci =
      .ok resp) :
    ∀ (recs : List (Option AddressReservation))
      (acc : List AddressReservation),
      respondLoop ifaceName iface reloadOk uci acc recs =
        .ok (acc ++ List.replicate
          ((recs.filter (isRequestFromOther iface.MAC)).length) resp) := by
  intro recs
  induction recs with
  | nil => intro acc; simp [respondLoop]
  | cons rec rest ih =>
    intro acc
    by_cases hm : isRequestFromOther iface.MAC rec = true
    · simp only [respondLoop, hm, if_true, hresp]
      rw [ih (acc ++ [resp])]
      simp [List.filter_cons, hm, List.replicate_succ, List.append_assoc]
    · have hm0 : isRequestFromOther iface.MAC rec = false := by
        cases hq : isRequestFromOther iface.MAC rec
        · rfl
        · exact absurd hq hm
      simp only [respondLoop, hm0, Bool.false_eq_true, if_false]
      rw [ih acc]
      simp [List.filter_cons, hm0]

theorem respondLoop_published_are_responses (ifaceName : String)
    (iface : NetworkInterface) (reloadOk : Bool) (uci : UciState) :
    ∀ (recs : List (Option AddressReservation))
      (acc : List AddressReservation),
      (∀ p ∈ acc, p.RequestingReservation = false ∧ p.Mac = iface.MAC) →
      ∀ p ∈ (respondLoop ifaceName iface reloadOk uci acc recs).val,
        p.RequestingReservation = false ∧ p.Mac = iface.MAC := by
  intro recs
  induction recs with
  | nil => intro acc hacc; exact hacc
  | cons rec rest ih =>
    intro acc hacc
    by_cases hm : isRequestFromOther iface.MAC rec = true
    · simp only [respondLoop, hm, if_true]
      cases hcr : createAddressReservationResponse ifaceName iface
          reloadOk uci with
      | err e => exact ih acc hacc
      | panicked => exact hacc
      | ok resp =>
        refine ih (acc ++ [resp]) ?_
        intro p hp
        rcases List.mem_append.mp hp with hp1 | hp2
        · exact hacc p hp1
        · have hfields := createAddressReservationResponse_fields ifaceName
            iface reloadOk uci resp hcr
          rcases List.mem_cons.mp hp2 with rfl | hp3
          · exact ⟨hfields.1, hfields.2.1⟩
          · cases hp3
    · have hm0 : isRequestFromOther iface.MAC rec = false := by
        cases hq : isRequestFromOther iface.MAC rec
        · rfl
        · exact absurd hq hm
      simp only [respondLoop, hm0, Bool.false_eq_true, if_false]
      exact ih acc hacc

/-- Claim C4: once dhcp_configured = "1" is persisted, the send tick
publishes nothing and never sends a requesting record; the receive tick
leaves the UCI state unchanged, never attempts static-IP auto-selection,
and everything it publishes is a response record with
requesting_reservation = false carrying our own MAC; and whenever the node
can build its own response record, the receive tick publishes exactly one
such response per received record that requests a reservation from a MAC
different from our own, the response describing our own settled
reservation (our MAC, our first interface address, and the DHCP start and
limit read from our own DHCP section). -/
theorem configured_node_only_responds (env : ARWReceiveEnv) (uci : UciState)
    (recs : List (Option AddressReservation))
    (hconf : IsDHCPConfiguredWithReader uci = .ok true)
    (hrecs : env.records = .ok recs) :
    addressReservationSendTick env.iface uci = .ok none ∧
    (addressReservationReceiveTick env uci).val.uci = uci ∧
    (addressReservationReceiveTick env uci).val.attemptedSelection = false ∧
    (∀ p ∈ (addressReservationReceiveTick env uci).val.published,
      p.RequestingReservation = false ∧ p.Mac = env.iface.MAC) ∧
    (∀ resp, createAddressReservationResponse env.ifaceName env.iface
        env.dhcpReloadOk uci = .ok resp →
      resp.RequestingReservation = false ∧
      resp.Mac = env.iface.MAC ∧
      (∃ first rest, env.iface.IP = first :: rest ∧
        resp.StaticIp = ipString first.IP) ∧
      (∃ dhcp, GetDHCPConfigWithReader (normalizeIfaceName env.ifaceName)
          env.dhcpReloadOk uci = .ok dhcp ∧
        resp.UciDhcpStart = dhcp.Start ∧ resp.UciDhcpLimit = dhcp.Limit) ∧
      addressReservationReceiveTick env uci =
        .ok { uci := uci,
              published := List.replicate
                ((recs.filter (isRequestFromOther env.iface.MAC)).length)
                resp,
              attemptedSelection := false, steps := [] }) := by
  have hsend : addressReservationSendTick env.iface uci = .ok none := by
    unfold addressReservationSendTick
    rw [hconf]
    simp
  have htickval : (addressReservationReceiveTick env uci).val.uci = uci ∧
      (addressReservationReceiveTick env uci).val.attemptedSelection =
        false ∧
      (∀ p ∈ (addressReservationReceiveTick env uci).val.published,
        p.RequestingReservation = false ∧ p.Mac = env.iface.MAC) := by
    unfold addressReservationReceiveTick
    simp only [hrecs, hconf, if_true]
    cases hrl : respondLoop env.ifaceName env.iface env.dhcpReloadOk uci
        [] recs with
    | ok pubs =>
      refine ⟨rfl, rfl, ?_⟩
      have := respondLoop_published_are_responses env.ifaceName env.iface
        env.dhcpReloadOk uci recs [] (by intro p hp; cases hp)
      rw [hrl] at this
      exact this
    | panicked pubs =>
      refine ⟨rfl, rfl, ?_⟩
      have := respondLoop_published_are_responses env.ifaceName env.iface
        env.dhcpReloadOk uci recs [] (by intro p hp; cases hp)
      rw [hrl] at this
      exact this
  refine ⟨hsend, htickval.1, htickval.2.1, htickval.2.2, ?_⟩
  intro resp hresp
  have hfields := createAddressReservationResponse_fields env.ifaceName
    env.iface env.dhcpReloadOk uci resp hresp
  have hrecv : addressReservationReceiveTick env uci =
      .ok { uci := uci,
            published := List.replicate
              ((recs.filter (isRequestFromOther env.iface.MAC)).length) resp,
            attemptedSelection := false, steps := [] } := by
    unfold addressReservationReceiveTick
    simp only [hrecs, hconf, if_true]
    rw [respondLoop_ok env.ifaceName env.iface env.dhcpReloadOk uci resp
      hresp recs []]
    simp
  exact ⟨hfields.1, hfields.2.1, hfields.2.2.1, hfields.2.2.2, hrecv⟩

/-- Witness: the C4 theorem applied at a concrete configured node. -/
theorem configured_node_only_responds_witness :
    addressReservationSendTick c4Env.iface c4Uci = .ok none ∧
    (addressReservationReceiveTick c4Env c4Uci).val.uci = c4Uci ∧
    (addressReservationReceiveTick c4Env c4Uci).val.attemptedSelection =
      false ∧
    (∀ p ∈ (addressReservationReceiveTick c4Env c4Uci).val.published,
      p.RequestingReservation = false ∧ p.Mac = c4Env.iface.MAC) ∧
    (∀ resp, createAddressReservationResponse c4Env.ifaceName c4Env.iface
        c4Env.dhcpReloadOk c4Uci = .ok resp →
      resp.RequestingReservation = false ∧
      resp.Mac = c4Env.iface.MAC ∧
      (∃ first rest, c4Env.iface.IP = first :: rest ∧
        resp.StaticIp = ipString first.IP) ∧
      (∃ dhcp, GetDHCPConfigWithReader (normalizeIfaceName c4Env.ifaceName)
          c4Env.dhcpReloadOk c4Uci = .ok dhcp ∧
        resp.UciDhcpStart = dhcp.Start ∧ resp.UciDhcpLimit = dhcp.Limit) ∧
      addressReservationReceiveTick c4Env c4Uci =
        .ok { uci := c4Uci,
              published := List.replicate
                ((c4Recs.filter
                  (isRequestFromOther c4Env.iface.MAC)).length) resp,
              attemptedSelection := false, steps := [] }) :=
  configured_node_only_responds c4Env c4Uci c4Recs (by rfl) (by rfl)

/-- Sanity check: the configured node answers the concrete request with
its settled reservation. -/
example :
    addressReservationReceiveTick c4Env c4Uci =
      .ok { uci := c4Uci, published := [c4Resp],
            attemptedSelection := false, steps := [] } := by
  rfl

/-! ## Claim C8: worker ticks on degenerate inputs -/

/-- Claim C8 evaluation at the failing inputs: a batman-adv gateway list with a
single entry not flagged best makes the gateway receive tick dereference
the nil GetBest result; an interface with no addresses makes the node send
tick and the unconfigured address-reservation send tick index an empty
slice.  Each is a Go runtime panic, which tears down the worker loop. -/
theorem workerTicks_panic_on_degenerate_inputs :
    gatewayReceiveTick
        { meshCfg := .ok { GwMode := "client", HardAddress := "mm" },
          records := .ok [some { Mac := "02:02", Ipaddr := "10.41.0.6",
                                 Hostname := "gw2" }],
          batGwys := .ok [{ HardIfname := "wlan0", OrigAddress := "02:02",
                            Best := false, Throughput := 7,
                            Router := "02:02" }],
          parseIP := fun _ => none,
          ifaceName := "br-ahwlan" }
        { defaultRoute := some { Gateway := .v4 10 41 0 1,
                                 Interface := "br-ahwlan", Metric := 5 },
          routeListOk := true, linkOk := true, replaceOk := true } =
      .panicked { defaultRoute := some { Gateway := .v4 10 41 0 1,
                                         Interface := "br-ahwlan",
                                         Metric := 5 },
                  routeListOk := true, linkOk := true, replaceOk := true } ∧
    nodeSendTick { iface := { Name := "br-ahwlan", MAC := "cc:cc", IP := [] },
                   hostname := .ok "n1" } = .panicked none ∧
    addressReservationSendTick
        { Name := "br-ahwlan", MAC := "cc:cc", IP := [] }
        { network := [], dhcp := [], dhcpConfigured := "0" } =
      .panicked none :=
  ⟨rfl, rfl, rfl⟩
/-- Sanity check: a node with an address sends a well-formed record. -/
example :
    nodeSendTick
        { iface := { Name := "br-ahwlan", MAC := "cc:cc",
                     IP := [{ IP := some (.v4 10 41 2 3), Netmask := none }] },
          hostname := .ok "n1" } =
      .ok (some { Mac := "cc:cc", Hostname := "n1",
                  Ipaddr := "10.41.2.3" }) := by
  rfl
